import Mathlib

/-!
Verification development for the extraction-job orchestrator in
`src/backend/modules/project_manager.py`.

The Python module is shallowly embedded as executable Lean definitions.
External effects (HTTP fetches, MongoDB writes, the worker thread pool,
the websocket consumer) are modelled as explicit data: an `Env` record
supplies the outcomes of collaborator calls, persistence calls become an
ordered list of `PersistOp` values, and messages put on the per-client
queue become an ordered list of `Message` values.  Timestamps carry no
information relevant to any claim and are abstracted to a fixed token.
-/

namespace ProjectManager

/-- Status constants (project_manager.py lines 42-45). -/
def STATUS_RUNNING : String := "running"

/-- Status constant "interrupted". -/
def STATUS_INTERRUPTED : String := "interrupted"

/-- Status constant "completed". -/
def STATUS_COMPLETED : String := "completed"

/-- Status constant "error". -/
def STATUS_ERROR : String := "error"

/-! ## String helpers (Python `in` and `str.find` over character lists) -/

/-- First index of `pat` in `hay` (Python `str.find`, as a character offset),
`none` when `pat` does not occur.  The empty pattern occurs at index 0. -/
def firstOccur (pat : List Char) : List Char → Option Nat
  | [] => if pat.isPrefixOf ([] : List Char) then some 0 else none
  | c :: t =>
    if pat.isPrefixOf (c :: t) then some 0
    else (firstOccur pat t).map (· + 1)

/-- Python `pat in hay` for strings. -/
def strContains (hay pat : String) : Bool :=
  (firstOccur pat.toList hay.toList).isSome

/-- Python `str.lower()`, character-wise (the library `String.toLower` is
extensionally the same but is defined by well-founded recursion, which a
kernel evaluation cannot unfold). -/
def lowerStr (s : String) : String :=
  String.mk (s.toList.map Char.toLower)

/-! ## check_page_for_keywords (lines 222-317) -/

/-- The meta information dictionary built at lines 244-267.  `og` models the
dictionary of Open Graph properties; the Python code only inserts the `og`
key when at least one tag was found, which is observationally the same as
an empty list here (every read uses a defaulted get). -/
structure MetaInfo where
  title : Option String := none
  description : Option String := none
  keywords : Option String := none
  og : List (String × String) := []
deriving Repr, DecidableEq

/-- Python dict truthiness of a `MetaInfo` value (empty dict is falsy). -/
def MetaInfo.isEmptyDict (m : MetaInfo) : Bool :=
  m.title.isNone && m.description.isNone && m.keywords.isNone && m.og.isEmpty

/-- What a successful HTTP fetch and parse of a page provides to
`check_page_for_keywords`: the visible body text and the meta fields that
BeautifulSoup would extract. -/
structure PageContent where
  bodyText : String
  title : Option String := none
  description : Option String := none
  metaKeywords : Option String := none
  og : List (String × String) := []
deriving Repr, DecidableEq

/-- Meta extraction (lines 244-267): performed only when `include_meta`. -/
def extractMeta (include_meta : Bool) (p : PageContent) : MetaInfo :=
  if include_meta then
    { title := p.title, description := p.description,
      keywords := p.metaKeywords, og := p.og }
  else {}

/-- The plus-or-minus 50 character context window around the first occurrence
of the keyword in the lowered body text (lines 280-285). -/
def contextWindow (text_content : String) (keyword : String) (idx : Nat) : String :=
  let context_start := idx - 50
  let context_end := min text_content.length (idx + keyword.length + 50)
  let chars := text_content.toList
  "..." ++ String.mk ((chars.drop context_start).take (context_end - context_start)) ++ "..."

/-- Result tuple of `check_page_for_keywords`:
(contains_keywords, matching_keywords, meta_info, keyword_contexts). -/
structure CheckResult where
  contains_keywords : Bool
  matching_keywords : List String
  meta_info : MetaInfo
  keyword_contexts : List (String × String)
deriving Repr, DecidableEq

/-- Body-text keyword pass (lines 270-285): case-insensitive substring match
against the lowered body text, recording a context window per hit. -/
def bodyPass (text_content : String) (keywords : List String) :
    List String × List (String × String) :=
  keywords.foldl
    (fun acc keyword =>
      let kl := lowerStr keyword
      match firstOccur kl.toList text_content.toList with
      | some idx =>
          (acc.1 ++ [keyword], acc.2 ++ [(keyword, contextWindow text_content keyword idx)])
      | none => acc)
    ([], [])

/-- The concatenated meta text searched at lines 288-294. -/
def metaText (m : MetaInfo) : String :=
  lowerStr (String.intercalate " "
    [m.title.getD "", m.description.getD "", m.keywords.getD "",
     String.intercalate " " (m.og.map (·.2))])

/-- Which meta field a keyword was found in (lines 301-309). -/
def metaContext (m : MetaInfo) (kl : String) : String :=
  if strContains (lowerStr (m.title.getD "")) kl then
    "Found in title: " ++ m.title.getD ""
  else if strContains (lowerStr (m.description.getD "")) kl then
    "Found in meta description: " ++ m.description.getD ""
  else if strContains (lowerStr (m.keywords.getD "")) kl then
    "Found in meta keywords: " ++ m.keywords.getD ""
  else "Found in meta information"

/-- Meta keyword pass (lines 288-309): adds keywords found in the meta text
that the body pass missed, with a field label as context. -/
def metaPass (m : MetaInfo) (keywords : List String)
    (acc : List String × List (String × String)) :
    List String × List (String × String) :=
  keywords.foldl
    (fun acc keyword =>
      let kl := lowerStr keyword
      if strContains (metaText m) kl && !(acc.1.contains keyword) then
        (acc.1 ++ [keyword], acc.2 ++ [(keyword, metaContext m kl)])
      else acc)
    acc

/-- check_page_for_keywords (lines 222-317).  The HTTP fetch and parse is an
input: `none` models any exception inside the function (fetch or parse
failure), which the source catches itself and turns into the tuple
(False, empty list, empty dict, empty dict) at line 317. -/
def check_page_for_keywords (fetched : Option PageContent) (keywords : List String)
    (include_meta : Bool) : CheckResult :=
  match fetched with
  | none =>
      { contains_keywords := false, matching_keywords := [],
        meta_info := {}, keyword_contexts := [] }
  | some page =>
      let text_content := lowerStr page.bodyText
      let meta_info := extractMeta include_meta page
      let b := bodyPass text_content keywords
      let r := if include_meta then metaPass meta_info keywords b else b
      { contains_keywords := !r.1.isEmpty, matching_keywords := r.1,
        meta_info := meta_info, keyword_contexts := r.2 }

/-! ## Registry (`active_extractions`) and control-plane operations -/

/-- One entry of the `active_extractions` dictionary (lines 119-124).  The
`last_updated` timestamp carries no claim-relevant information and is
omitted. -/
structure RegistryEntry where
  project_id : String := ""
  status : String := STATUS_RUNNING
  interrupt_requested : Bool := false
deriving Repr, DecidableEq

/-- interrupt_extraction (lines 726-734) acting on the job's registry entry
(`none` models `client_id not in active_extractions`). -/
def interrupt_extraction : Option RegistryEntry → Bool × Option RegistryEntry
  | none => (false, none)
  | some e => (true, some { e with interrupt_requested := true })

/-! ## add_project_with_scraping (lines 47-176) -/

/-- scrape_mode validation (lines 65-66). -/
def validated_scrape_mode (scrape_mode : String) : String :=
  if scrape_mode = "all" ∨ scrape_mode = "limited" then scrape_mode else "limited"

/-- pages_limit validation (lines 69-72), applied after mode validation. -/
def validated_pages_limit (scrape_mode : String) (pages_limit : Int) : Int :=
  if pages_limit < 1 then 5
  else if scrape_mode = "limited" ∧ pages_limit > 100 then 100
  else pages_limit

/-- The effective page limit a submission ends up with. -/
def effectivePagesLimit (scrape_mode : String) (pages_limit : Int) : Int :=
  validated_pages_limit (validated_scrape_mode scrape_mode) pages_limit

/-- Observable outcome of `add_project_with_scraping`: which of its effects
happened.  Database inserts, the consumer task and the websocket send are
abstracted to booleans; `worker_submitted` records whether
`thread_pool.submit(run_extraction_thread, ...)` was reached. -/
structure AddProjectOutcome where
  scrape_mode : String
  pages_limit : Int
  project_inserted : Bool
  registry : RegistryEntry
  stats_initialized : Bool
  queue_created : Bool
  consumer_started : Bool
  initial_message_sent : Bool
  worker_submitted : Bool
deriving Repr, DecidableEq

/-- add_project_with_scraping (lines 47-176).  An empty URL raises
HTTPException 400 (line 62); everything guarded by `if ws_manager:`
(lines 140-165) happens only when a websocket manager was passed. -/
def add_project_with_scraping (url : String) (has_ws_manager : Bool)
    (scrape_mode : String) (pages_limit : Int) : Except Nat AddProjectOutcome :=
  if url = "" then .error 400
  else
    let m := validated_scrape_mode scrape_mode
    let n := validated_pages_limit m pages_limit
    .ok { scrape_mode := m, pages_limit := n, project_inserted := true,
          registry := { project_id := "project", status := STATUS_RUNNING,
                        interrupt_requested := false },
          stats_initialized := true,
          queue_created := has_ws_manager, consumer_started := has_ws_manager,
          initial_message_sent := has_ws_manager,
          worker_submitted := has_ws_manager }

/-! ## The extraction worker (run_extraction_thread, lines 340-668) -/

/-- One item put on the per-client message queue by `send_log` (lines
319-338) or by the completion puts at lines 624-635 and 709-721.  The
timestamp is abstracted away; the JSON payload of a completion message is
modelled by the three optional fields. -/
structure Message where
  mtype : String
  text : String := ""
  pages_found : Option Nat := none
  pages_scraped : Option Nat := none
  status_field : Option String := none
deriving Repr, DecidableEq

/-- Number of completion-kind messages in a queue. -/
def completionCount (msgs : List Message) : Nat :=
  (msgs.filter (fun m => m.mtype == "completion")).length

/-- The `processing_status` dictionary built at lines 364-377 and mutated
by the worker.  Keys that Python adds later in the run are modelled as
`Option` fields starting at `none`.  `end_time_sets` is instrumentation:
it counts assignments to `end_time`, so that the set-exactly-once claim
is statable; the source has no counterpart, and no definition reads it. -/
structure ProcessingStatus where
  robots_status : String := "not_processed"
  sitemap_status : String := "not_processed"
  pages_found : Nat := 0
  pages_scraped : Nat := 0
  errors : List String := []
  extraction_status : String := STATUS_RUNNING
  end_time : Option String := none
  scrape_mode : String := "limited"
  pages_limit : Nat := 5
  search_keywords : List String := []
  include_meta : Bool := true
  keyword_search_performed : Option Bool := none
  keyword_search_results : Option String := none
  pages_checked : Option Nat := none
  keyword_matches : Option (List (String × List String)) := none
  keyword_contexts : Option (List (String × List (String × String))) := none
  pages_with_keywords : Option Nat := none
  end_time_sets : Nat := 0
deriving Repr, DecidableEq

/-- `processing_status["end_time"] = datetime.datetime.utcnow().isoformat()`:
timestamps are abstracted to a fixed token and the instrumentation counter
is bumped. -/
def ProcessingStatus.setEndTime (ps : ProcessingStatus) : ProcessingStatus :=
  { ps with end_time := some "utcnow", end_time_sets := ps.end_time_sets + 1 }

/-- One call to the persistence layer made during a run, in order:
`store_in_mongodb` per page (line 557), the no-matches partial update
(lines 500-509), the completed-path partial updates (lines 595-604 and
615-619), and the whole-status updates of the error path (lines 653-657)
and of `handle_interruption` (lines 696-700). -/
inductive PersistOp
  | storePage (url : String) (withMeta : Bool)
  | noMatchesUpdate (pages_checked : Nat) (search_keywords : List String)
  | completedUpdate (scraped_pages : List String) (pages_scraped : Nat)
  | finalKeywordUpdate (keyword_matches : List (String × List String))
      (pages_with_keywords : Nat) (pages_checked : Nat) (performed : Bool)
  | fullStatusUpdate (ps : ProcessingStatus)
deriving Repr, DecidableEq

/-- Outcome of `Robots(site=url)` (lines 390-403): an object with a truthy
`_id`, an object without one, or a raised exception. -/
inductive RobotsOutcome
  | hasId
  | noId
  | raises
deriving Repr, DecidableEq

/-- Outcome of `Sitemap(start_url=url)` (lines 410-425): the `page_urls`
attribute (an empty list is falsy, giving the no-pages branch), or a
raised exception. -/
inductive SitemapOutcome
  | returns (page_urls : List String)
  | raises
deriving Repr, DecidableEq

/-- The fields of a `scrape_website` result that the worker reads
(lines 564-574). -/
structure ScrapedData where
  content_size_bytes : Nat := 0
  duration_ms : Nat := 0
  speed_kbps : Nat := 0
  text_content : Nat := 0
  images : Nat := 0
deriving Repr, DecidableEq

/-- The environment of one worker run: outcomes of every collaborator call.
`fetchPage` feeds `check_page_for_keywords` (`none` = fetch/parse failure
caught inside it); `checkRaises` models an exception raised in the loop
body at lines 450-480 outside `check_page_for_keywords` (the source
handles it at lines 481-486; no in-language raise site remains once the
check itself catches its own errors, so this is kept as an abstract
possibility); `scrape` is `scrape_website` (`none` = the per-page
exception handled at lines 576-581); `uncaughtAt = some i` models an
exception escaping the pipeline body at the start of scrape iteration
`i`, reaching the outer handler at lines 637-659 (spec section 4.3,
unrecoverable failure); `interruptFrom = some j` says the monotone
`interrupt_requested` flag reads true from the j-th `should_interrupt`
call onwards (1-based). -/
structure Env where
  robots : RobotsOutcome
  sitemap : SitemapOutcome
  fetchPage : String → Option PageContent
  checkRaises : String → Bool
  scrape : String → Option ScrapedData
  uncaughtAt : Option Nat := none
  interruptFrom : Option Nat := none

/-- should_interrupt (lines 670-674) at the k-th query of the flag. -/
def Env.should_interrupt (env : Env) (k : Nat) : Bool :=
  match env.interruptFrom with
  | none => false
  | some j => decide (j ≤ k)

/-- The worker's mutable state: `ps` is `processing_status`; the other
fields are the local variables of `run_extraction_thread` plus the
observable effect logs.  `checks` counts `should_interrupt` calls;
`fetches` is instrumentation recording each call to the scraping
collaborator `scrape_website`. -/
structure WorkerState where
  ps : ProcessingStatus
  msgs : List Message := []
  persists : List PersistOp := []
  checks : Nat := 0
  registry_status : String := STATUS_RUNNING
  scraped_pages : List String := []
  filtered_pages : List String := []
  kw_matches : List (String × List String) := []
  kw_contexts : List (String × List (String × String)) := []
  meta_extracted : List (String × MetaInfo) := []
  pages_with_keywords : Nat := 0
  pages_checked : Nat := 0
  pages_to_process : List String := []
  fetches : List String := []
deriving Repr

/-- send_log (lines 319-338): within a worker run the queue exists (the
worker is only submitted after the queue is created, lines 140-165), so
the message is appended. -/
def emit (st : WorkerState) (t text : String) : WorkerState :=
  { st with msgs := st.msgs ++ [{ mtype := t, text := text }] }

/-- A completion-kind queue item with its JSON payload fields. -/
def completionMessage (pf psc : Nat) (sf : Option String) : Message :=
  { mtype := "completion", pages_found := some pf, pages_scraped := some psc,
    status_field := sf }

/-- Dictionary lookup in an insertion-ordered association list. -/
def alistGet {α : Type} (l : List (String × α)) (k : String) : Option α :=
  (l.find? (fun p => p.1 == k)).map (·.2)

/-- handle_interruption (lines 676-724): mark the registry entry
interrupted, stamp status and end time, persist the whole processing
status, queue a warning and then a completion message.  The registry
entry is present for a running job (the consumer only deletes terminal
entries), so the early return at line 679 does not fire. -/
def handle_interruption (st : WorkerState) : WorkerState :=
  let st := { st with registry_status := STATUS_INTERRUPTED }
  let ps := ({ st.ps with extraction_status := STATUS_INTERRUPTED }).setEndTime
  let st := { st with ps := ps }
  let st := { st with persists := st.persists ++ [PersistOp.fullStatusUpdate ps] }
  let st := emit st "warning" "Extraction interrupted by user request"
  { st with msgs := st.msgs
      ++ [completionMessage ps.pages_found ps.pages_scraped (some STATUS_INTERRUPTED)] }

/-- The detail logs per keyword match (lines 469-477). -/
def emitDetails (st : WorkerState) (l : List String) : WorkerState :=
  l.foldl (fun st kw => emit st "detail" ("Match context: " ++ kw)) st

/-- Exit mode of the keyword prefilter loop. -/
inductive PrefilterExit
  | normal
  | interrupted
deriving Repr, DecidableEq

/-- The keyword prefilter loop (lines 443-486) over
`sitemap_pages[:pages_limit]`; `i` is the enumerate index.  Before each
page the interrupt flag is queried; a caller-level exception includes
the page anyway (lines 481-486); otherwise the check result decides
between recording the match and skipping the page. -/
def prefilterLoop (env : Env) (keywords : List String) (include_meta : Bool) :
    List String → Nat → WorkerState → WorkerState × PrefilterExit
  | [], _, st => (st, .normal)
  | page_url :: rest, i, st =>
    let st := { st with checks := st.checks + 1 }
    if env.should_interrupt st.checks then
      (emit st "warning"
        ("Filtering interrupted after checking " ++ toString i ++ " pages"),
       .interrupted)
    else
      let st := { st with pages_checked := st.pages_checked + 1 }
      let st := emit st "info"
        ("Checking page " ++ toString st.pages_checked ++ " for keywords: " ++ page_url)
      if env.checkRaises page_url then
        let st := emit st "error" ("Error checking keywords in " ++ page_url)
        let st := { st with filtered_pages := st.filtered_pages ++ [page_url] }
        prefilterLoop env keywords include_meta rest (i + 1) st
      else
        let r := check_page_for_keywords (env.fetchPage page_url) keywords include_meta
        if r.contains_keywords then
          let st := { st with
            pages_with_keywords := st.pages_with_keywords + 1,
            filtered_pages := st.filtered_pages ++ [page_url],
            kw_matches := st.kw_matches ++ [(page_url, r.matching_keywords)],
            kw_contexts := st.kw_contexts ++ [(page_url, r.keyword_contexts)],
            meta_extracted := st.meta_extracted ++ [(page_url, r.meta_info)] }
          let st := emit st "success"
            ("Page " ++ page_url ++ " contains keywords: "
              ++ String.intercalate ", " r.matching_keywords)
          let st := emitDetails st r.matching_keywords
          prefilterLoop env keywords include_meta rest (i + 1) st
        else
          let st := emit st "warning"
            ("Page " ++ page_url ++ " does not contain any keywords, skipping")
          prefilterLoop env keywords include_meta rest (i + 1) st

/-- Exit mode of the fetch-and-persist loop. -/
inductive ScrapeExit
  | normal
  | interrupted
  | uncaught
deriving Repr, DecidableEq

/-- The per-page detail log messages of lines 536-546, in emission order
(keyword-match detail, then meta title and meta description details when
prefilter data exists for this page). -/
def detailMsgs (page_url : String) (st : WorkerState) : List Message :=
  (if (alistGet st.kw_matches page_url).isSome then
    [{ mtype := "detail", text := "Keyword matches for " ++ page_url }]
  else [])
  ++ (match alistGet st.meta_extracted page_url with
  | some m =>
    if !m.isEmptyDict then
      (if m.title.isSome then
        [{ mtype := "detail", text := "Meta title: " ++ m.title.getD "" }]
      else [])
      ++ (if m.description.isSome then
        [{ mtype := "detail", text := "Meta description: " ++ m.description.getD "" }]
      else [])
    else []
  | none => [])

/-- The per-page detail logs at lines 536-546. -/
def detailBlock (page_url : String) (st : WorkerState) : WorkerState :=
  { st with msgs := st.msgs ++ detailMsgs page_url st }

/-- The log messages emitted after a successful page scrape (lines
561-574), in order: the success log, the page-size detail, the timing
detail when `duration_ms > 0`, and the element-count detail. -/
def successMsgs (page_url : String) (data : ScrapedData) : List Message :=
  [{ mtype := "success", text := "Successfully scraped " ++ page_url },
   { mtype := "detail",
     text := "Page size: " ++ toString data.content_size_bytes ++ " bytes" }]
  ++ (if data.duration_ms > 0 then
    [{ mtype := "detail",
       text := "Page loaded in " ++ toString data.duration_ms ++ " ms" }]
  else [])
  ++ [{ mtype := "detail",
        text := "Extracted " ++ toString (data.text_content + data.images) ++ " elements" }]

/-- The `scrape_website` call and its aftermath (lines 548-581): on
success merge prefilter meta, store the record, append the page and log;
on a per-page exception log and append a non-fatal error. -/
def scrapeAttempt (env : Env) (page_url : String) (st : WorkerState) : WorkerState :=
  let st := { st with fetches := st.fetches ++ [page_url] }
  match env.scrape page_url with
  | some data =>
    let withMeta := match alistGet st.meta_extracted page_url with
      | some m => !m.isEmptyDict
      | none => false
    let st := { st with persists := st.persists
        ++ [PersistOp.storePage page_url withMeta] }
    let st := { st with scraped_pages := st.scraped_pages ++ [page_url] }
    { st with msgs := st.msgs ++ successMsgs page_url data }
  | none =>
    let error_msg := "Error scraping " ++ page_url
    let st := emit st "error" error_msg
    { st with ps := { st.ps with errors := st.ps.errors ++ [error_msg] } }

/-- One full loop-body pass over a page (lines 533-581). -/
def scrapeBody (env : Env) (total i : Nat) (page_url : String)
    (st : WorkerState) : WorkerState :=
  let st := emit st "info"
    ("Scraping page " ++ toString (i + 1) ++ "/" ++ toString total ++ ": " ++ page_url)
  scrapeAttempt env page_url (detailBlock page_url st)

/-- The fetch-and-persist loop (lines 532-587).  Each iteration logs, runs
`scrape_website` (recorded in `fetches`), on success stores the page and
appends it to `scraped_pages`, on a per-page failure appends an error and
continues; only after the page is processed is the interrupt flag
queried (lines 583-587).  `uncaught` models an exception escaping the
pipeline body here. -/
def scrapeLoop (env : Env) (total : Nat) :
    List String → Nat → WorkerState → WorkerState × ScrapeExit
  | [], _, st => (st, .normal)
  | page_url :: rest, i, st =>
    if env.uncaughtAt == some i then (st, .uncaught)
    else
      let st := scrapeBody env total i page_url st
      let st := { st with checks := st.checks + 1 }
      if env.should_interrupt st.checks then
        (emit st "warning"
          ("Scraping interrupted after processing " ++ toString (i + 1) ++ " pages"),
         .interrupted)
      else
        scrapeLoop env total rest (i + 1) st

/-- The completed path (lines 589-635): final counts, COMPLETED status and
end time, two partial updates, an info log and the completion message. -/
def completedPath (st : WorkerState) : WorkerState :=
  let ps := { st.ps with pages_scraped := st.scraped_pages.length }
  let ps := ({ ps with extraction_status := STATUS_COMPLETED }).setEndTime
  let st := { st with ps := ps }
  let st := { st with persists := st.persists
      ++ [PersistOp.completedUpdate st.scraped_pages st.scraped_pages.length] }
  let st := { st with persists := st.persists
      ++ [PersistOp.finalKeywordUpdate st.kw_matches st.pages_with_keywords
            st.pages_checked (!ps.search_keywords.isEmpty)] }
  let st := emit st "info" "Extraction process completed"
  { st with msgs := st.msgs
      ++ [completionMessage ps.pages_found ps.pages_scraped none] }

/-- The outer exception handler (lines 637-659): error log, registry entry
marked ERROR, status stamped with ERROR and end time, error appended,
whole status persisted; no completion message is queued. -/
def errorPath (st : WorkerState) : WorkerState :=
  let error_msg := "Unexpected error in extraction thread"
  let st := emit st "error" error_msg
  let st := { st with registry_status := STATUS_ERROR }
  let ps := ({ st.ps with extraction_status := STATUS_ERROR }).setEndTime
  let ps := { ps with errors := ps.errors ++ [error_msg] }
  let st := { st with ps := ps }
  { st with persists := st.persists ++ [PersistOp.fullStatusUpdate ps] }

/-- The page list the worker works from after discovery: the sitemap's
pages when it yielded a truthy list, else the single-page default
`[url]` (lines 407-425). -/
def discoveredPages (env : Env) (url : String) : List String :=
  match env.sitemap with
  | .returns urls => if urls.isEmpty then [url] else urls
  | .raises => [url]

/-- Step 1, robots.txt processing (lines 386-403). -/
def robotsStage (env : Env) (url : String) (st : WorkerState) : WorkerState :=
  let st := emit st "info" ("Processing robots.txt for " ++ url)
  match env.robots with
  | .hasId =>
    let st := { st with ps := { st.ps with robots_status := "success" } }
    emit st "success" "Successfully processed robots.txt"
  | .noId =>
    let ps := { st.ps with robots_status := "failed" }
    let st := { st with ps := { ps with errors := ps.errors ++ ["Failed to process robots.txt"] } }
    emit st "error" "Failed to process robots.txt"
  | .raises =>
    let ps := { st.ps with robots_status := "error" }
    let st := { st with ps := { ps with errors := ps.errors ++ ["Error in robots.txt processing"] } }
    emit st "error" "Error in robots.txt processing"

/-- Step 2, sitemap processing (lines 405-425), consistent with
`discoveredPages`. -/
def sitemapStage (env : Env) (url : String) (st : WorkerState) : WorkerState :=
  let st := emit st "info" ("Processing sitemap for " ++ url)
  match env.sitemap with
  | .returns urls =>
    if urls.isEmpty then
      let ps := { st.ps with sitemap_status := "no_pages" }
      let st := { st with ps := { ps with errors := ps.errors ++ ["No pages found in sitemap"] } }
      emit st "warning" "No pages found in sitemap"
    else
      let ps := { st.ps with sitemap_status := "success" }
      let st := { st with ps := { ps with pages_found := urls.length } }
      emit st "success" ("Found " ++ toString urls.length ++ " pages in sitemap")
  | .raises =>
    let ps := { st.ps with sitemap_status := "error" }
    let st := { st with ps := { ps with errors := ps.errors ++ ["Error in sitemap processing"] } }
    emit st "error" "Error in sitemap processing"

/-- The summary-and-fallback block after the prefilter loop (lines
488-527): records the no-matches outcome (with its immediate partial
update) when nothing matched, stores the keyword maps in the status, and
selects `pages_to_process`. -/
def postPrefilter (sitemap_pages : List String) (pages_limit : Nat)
    (search_keywords : List String) (st : WorkerState) : WorkerState :=
  let st :=
    if st.pages_with_keywords > 0 then
      emit st "info" ("Found " ++ toString st.pages_with_keywords
        ++ " pages containing keywords out of " ++ toString st.pages_checked ++ " checked")
    else
      let st := emit st "warning"
        ("No pages containing the specified keywords were found after checking "
          ++ toString st.pages_checked ++ " pages")
      let st := { st with ps := { st.ps with
        keyword_search_performed := some true,
        keyword_search_results := some "no_matches",
        pages_checked := some st.pages_checked,
        search_keywords := search_keywords } }
      { st with persists := st.persists
          ++ [PersistOp.noMatchesUpdate st.pages_checked search_keywords] }
  let st := { st with ps := { st.ps with
    keyword_matches := some st.kw_matches,
    keyword_contexts := some st.kw_contexts,
    pages_with_keywords := some st.pages_with_keywords,
    pages_checked := some st.pages_checked } }
  if !st.filtered_pages.isEmpty then
    let st := { st with pages_to_process := st.filtered_pages }
    emit st "info" "Processing only pages containing keywords"
  else
    let st := { st with pages_to_process :=
      sitemap_pages.take (min pages_limit sitemap_pages.length) }
    emit st "info" "No pages matched keywords, processing a limited set of pages anyway"

/-- The scrape phase (lines 529-659): the start log, the fetch-and-persist
loop over `pages_to_process`, and the three possible ends of the run. -/
def scrapePhase (env : Env) (st : WorkerState) : WorkerState :=
  let st := emit st "info"
    ("Starting to scrape " ++ toString st.pages_to_process.length ++ " pages")
  let out := scrapeLoop env st.pages_to_process.length st.pages_to_process 0 st
  match out.2 with
  | .interrupted => handle_interruption out.1
  | .uncaught => errorPath out.1
  | .normal => completedPath out.1

/-- The fresh `processing_status` of lines 364-377. -/
def initStatus (scrape_mode : String) (pages_limit : Nat)
    (search_keywords : List String) (include_meta : Bool) : ProcessingStatus :=
  { scrape_mode := scrape_mode, pages_limit := pages_limit,
    search_keywords := search_keywords, include_meta := include_meta }

/-- The worker's state as the thread starts: a fresh status, no messages,
no persists, registry entry still running. -/
def initWorkerState (scrape_mode : String) (pages_limit : Nat)
    (search_keywords : List String) (include_meta : Bool) : WorkerState :=
  { ps := initStatus scrape_mode pages_limit search_keywords include_meta }

/-- The worker state after the opening logs (lines 380-384) and the
robots and sitemap stages (lines 386-425). -/
def stagedState (env : Env) (url : String) (scrape_mode : String)
    (pages_limit : Nat) (search_keywords : List String) (include_meta : Bool) :
    WorkerState :=
  let st : WorkerState :=
    initWorkerState scrape_mode pages_limit search_keywords include_meta
  let st := emit st "info" ("Starting extraction process for " ++ url)
  let st :=
    if search_keywords.isEmpty then st
    else
      let st := emit st "info"
        ("Using keyword filter: " ++ String.intercalate ", " search_keywords)
      if include_meta then
        emit st "info" "Including meta information in keyword search"
      else st
  sitemapStage env url (robotsStage env url st)

/-- run_extraction_thread (lines 340-668) as a function from the
collaborator outcomes to the worker's final observable state. -/
def run_extraction_thread (env : Env) (url : String) (scrape_mode : String)
    (pages_limit : Nat) (search_keywords : List String) (include_meta : Bool) :
    WorkerState :=
  let st := stagedState env url scrape_mode pages_limit search_keywords include_meta
  let sitemap_pages := discoveredPages env url
  if search_keywords.isEmpty then
    scrapePhase env { st with pages_to_process := sitemap_pages.take pages_limit }
  else
    let st := emit st "info"
      ("Filtering pages by keywords: " ++ String.intercalate ", " search_keywords)
    let out := prefilterLoop env search_keywords include_meta
      (sitemap_pages.take pages_limit) 0 st
    match out.2 with
    | .interrupted => handle_interruption out.1
    | .normal => scrapePhase env (postPrefilter sitemap_pages pages_limit search_keywords out.1)

/-! ## Basic lemmas -/

theorem getLast_append_singleton {α : Type} (l : List α) (a : α) :
    (l ++ [a]).getLast? = some a := by
  rw [List.getLast?_append_cons]; rfl

theorem completionCount_append (a b : List Message) :
    completionCount (a ++ b) = completionCount a + completionCount b := by
  simp [completionCount, List.filter_append]

@[simp] theorem emit_ps (st : WorkerState) (t x : String) : (emit st t x).ps = st.ps := rfl

@[simp] theorem emit_persists (st : WorkerState) (t x : String) :
    (emit st t x).persists = st.persists := rfl

@[simp] theorem emit_scraped (st : WorkerState) (t x : String) :
    (emit st t x).scraped_pages = st.scraped_pages := rfl

@[simp] theorem emit_registry (st : WorkerState) (t x : String) :
    (emit st t x).registry_status = st.registry_status := rfl

@[simp] theorem emit_ptp (st : WorkerState) (t x : String) :
    (emit st t x).pages_to_process = st.pages_to_process := rfl

@[simp] theorem emit_fetches (st : WorkerState) (t x : String) :
    (emit st t x).fetches = st.fetches := rfl

@[simp] theorem emit_filtered (st : WorkerState) (t x : String) :
    (emit st t x).filtered_pages = st.filtered_pages := rfl

@[simp] theorem emit_pwk (st : WorkerState) (t x : String) :
    (emit st t x).pages_with_keywords = st.pages_with_keywords := rfl

@[simp] theorem emit_pchecked (st : WorkerState) (t x : String) :
    (emit st t x).pages_checked = st.pages_checked := rfl

@[simp] theorem emit_checks (st : WorkerState) (t x : String) :
    (emit st t x).checks = st.checks := rfl

@[simp] theorem emit_kwm (st : WorkerState) (t x : String) :
    (emit st t x).kw_matches = st.kw_matches := rfl

@[simp] theorem emit_kwc (st : WorkerState) (t x : String) :
    (emit st t x).kw_contexts = st.kw_contexts := rfl

@[simp] theorem emit_meta (st : WorkerState) (t x : String) :
    (emit st t x).meta_extracted = st.meta_extracted := rfl

theorem emit_msgs (st : WorkerState) (t x : String) :
    (emit st t x).msgs = st.msgs ++ [{ mtype := t, text := x }] := rfl

theorem completionCount_emit (st : WorkerState) (t x : String)
    (h : (t == "completion") = false) :
    completionCount (emit st t x).msgs = completionCount st.msgs := by
  simp [emit_msgs, completionCount_append, completionCount, h]

/-! ## Preservation contracts

`CtrlOk st r` says `r` differs from `st` only by queued non-completion
log messages: every field a claim reads is untouched.  `PreOk k st r`
additionally allows the prefilter-loop-owned locals to change, with at
most `k` pages added to `filtered_pages`.  `StepOk k st r` is the scrape
phase contract: persists may grow by page stores only, at most `k` pages
are appended to `scraped_pages`, and stored pages stay covered by a
`storePage` persist. -/

def CtrlOk (st r : WorkerState) : Prop :=
  r.ps = st.ps ∧
  r.persists = st.persists ∧
  r.scraped_pages = st.scraped_pages ∧
  r.registry_status = st.registry_status ∧
  r.pages_to_process = st.pages_to_process ∧
  r.fetches = st.fetches ∧
  r.filtered_pages = st.filtered_pages ∧
  r.pages_with_keywords = st.pages_with_keywords ∧
  r.pages_checked = st.pages_checked ∧
  r.kw_matches = st.kw_matches ∧
  r.kw_contexts = st.kw_contexts ∧
  r.meta_extracted = st.meta_extracted ∧
  completionCount r.msgs = completionCount st.msgs

theorem ctrlOk_refl (st : WorkerState) : CtrlOk st st := by
  unfold CtrlOk; repeat' constructor

theorem ctrlOk_trans {a b c : WorkerState} (h1 : CtrlOk a b) (h2 : CtrlOk b c) :
    CtrlOk a c := by
  obtain ⟨p1, q1, r1, s1, t1, u1, v1, w1, x1, y1, z1, m1, c1⟩ := h1
  obtain ⟨p2, q2, r2, s2, t2, u2, v2, w2, x2, y2, z2, m2, c2⟩ := h2
  exact ⟨p2.trans p1, q2.trans q1, r2.trans r1, s2.trans s1, t2.trans t1,
    u2.trans u1, v2.trans v1, w2.trans w1, x2.trans x1, y2.trans y1,
    z2.trans z1, m2.trans m1, c2.trans c1⟩

theorem ctrlOk_emit (st : WorkerState) (t x : String)
    (h : (t == "completion") = false) : CtrlOk st (emit st t x) := by
  refine ⟨rfl, rfl, rfl, rfl, rfl, rfl, rfl, rfl, rfl, rfl, rfl, rfl, ?_⟩
  exact completionCount_emit st t x h

def PreOk (k : Nat) (st r : WorkerState) : Prop :=
  r.ps = st.ps ∧
  r.persists = st.persists ∧
  r.scraped_pages = st.scraped_pages ∧
  r.registry_status = st.registry_status ∧
  r.pages_to_process = st.pages_to_process ∧
  r.fetches = st.fetches ∧
  completionCount r.msgs = completionCount st.msgs ∧
  r.filtered_pages.length ≤ st.filtered_pages.length + k

theorem preOk_refl (k : Nat) (st : WorkerState) : PreOk k st st := by
  refine ⟨rfl, rfl, rfl, rfl, rfl, rfl, rfl, ?_⟩
  exact Nat.le_add_right _ _

theorem preOk_trans {k1 k2 : Nat} {a b c : WorkerState}
    (h1 : PreOk k1 a b) (h2 : PreOk k2 b c) : PreOk (k1 + k2) a c := by
  obtain ⟨p1, q1, r1, s1, t1, u1, c1, l1⟩ := h1
  obtain ⟨p2, q2, r2, s2, t2, u2, c2, l2⟩ := h2
  refine ⟨p2.trans p1, q2.trans q1, r2.trans r1, s2.trans s1, t2.trans t1,
    u2.trans u1, c2.trans c1, ?_⟩
  calc c.filtered_pages.length ≤ b.filtered_pages.length + k2 := l2
    _ ≤ a.filtered_pages.length + k1 + k2 := Nat.add_le_add_right l1 k2
    _ = a.filtered_pages.length + (k1 + k2) := Nat.add_assoc _ _ _

theorem CtrlOk.preOk {k : Nat} {a b : WorkerState} (h : CtrlOk a b) : PreOk k a b := by
  obtain ⟨p, q, r, s, t, u, v, _, _, _, _, _, c⟩ := h
  exact ⟨p, q, r, s, t, u, c, by rw [v]; exact Nat.le_add_right _ _⟩

def StepOk (k : Nat) (st r : WorkerState) : Prop :=
  r.ps.extraction_status = st.ps.extraction_status ∧
  r.ps.end_time = st.ps.end_time ∧
  r.ps.end_time_sets = st.ps.end_time_sets ∧
  r.ps.pages_scraped = st.ps.pages_scraped ∧
  r.ps.pages_found = st.ps.pages_found ∧
  r.ps.keyword_search_results = st.ps.keyword_search_results ∧
  r.ps.pages_checked = st.ps.pages_checked ∧
  r.registry_status = st.registry_status ∧
  r.pages_to_process = st.pages_to_process ∧
  completionCount r.msgs = completionCount st.msgs ∧
  (∃ ops, r.persists = st.persists ++ ops ∧
    ∀ op ∈ ops, ∃ u b, op = PersistOp.storePage u b) ∧
  r.scraped_pages.length ≤ st.scraped_pages.length + k ∧
  ((∀ u ∈ st.scraped_pages, ∃ b, PersistOp.storePage u b ∈ st.persists) →
    ∀ u ∈ r.scraped_pages, ∃ b, PersistOp.storePage u b ∈ r.persists)

theorem stepOk_refl (k : Nat) (st : WorkerState) : StepOk k st st := by
  refine ⟨rfl, rfl, rfl, rfl, rfl, rfl, rfl, rfl, rfl, rfl,
    ⟨[], by simp, by simp⟩, Nat.le_add_right _ _, fun h => h⟩

theorem stepOk_trans {k1 k2 : Nat} {a b c : WorkerState}
    (h1 : StepOk k1 a b) (h2 : StepOk k2 b c) : StepOk (k1 + k2) a c := by
  obtain ⟨e1, t1, n1, s1, f1, k1', p1, r1, q1, c1, ⟨o1, ho1, hs1⟩, l1, v1⟩ := h1
  obtain ⟨e2, t2, n2, s2, f2, k2', p2, r2, q2, c2, ⟨o2, ho2, hs2⟩, l2, v2⟩ := h2
  refine ⟨e2.trans e1, t2.trans t1, n2.trans n1, s2.trans s1, f2.trans f1,
    k2'.trans k1', p2.trans p1, r2.trans r1, q2.trans q1, c2.trans c1,
    ⟨o1 ++ o2, ?_, ?_⟩, ?_, ?_⟩
  · rw [ho2, ho1, List.append_assoc]
  · intro op hop
    rcases List.mem_append.mp hop with h | h
    · exact hs1 op h
    · exact hs2 op h
  · calc c.scraped_pages.length ≤ b.scraped_pages.length + k2 := l2
      _ ≤ a.scraped_pages.length + k1 + k2 := Nat.add_le_add_right l1 k2
      _ = a.scraped_pages.length + (k1 + k2) := Nat.add_assoc _ _ _
  · intro h
    exact v2 (v1 h)

theorem CtrlOk.stepOk {k : Nat} {a b : WorkerState} (h : CtrlOk a b) : StepOk k a b := by
  obtain ⟨p, q, r, s, t, u, _, _, _, _, _, _, c⟩ := h
  refine ⟨by rw [p], by rw [p], by rw [p], by rw [p], by rw [p], by rw [p], by rw [p],
    s, t, c, ⟨[], by simp [q], by simp⟩, by rw [r]; exact Nat.le_add_right _ _, ?_⟩
  intro h' u' hu'
  rw [r] at hu'
  obtain ⟨b', hb'⟩ := h' u' hu'
  exact ⟨b', by rw [q]; exact hb'⟩

/-! ## Block-level lemmas -/

theorem completionCount_detailMsgs (u : String) (st : WorkerState) :
    completionCount (detailMsgs u st) = 0 := by
  unfold detailMsgs
  rw [completionCount_append]
  split <;> split <;>
    simp [completionCount_append, completionCount] <;>
    rintro a _ (⟨_, rfl⟩ | ⟨_, rfl⟩) <;> simp

theorem ctrlOk_detailBlock (u : String) (st : WorkerState) :
    CtrlOk st (detailBlock u st) := by
  refine ⟨rfl, rfl, rfl, rfl, rfl, rfl, rfl, rfl, rfl, rfl, rfl, rfl, ?_⟩
  show completionCount (st.msgs ++ detailMsgs u st) = completionCount st.msgs
  rw [completionCount_append, completionCount_detailMsgs, Nat.add_zero]

theorem completionCount_successMsgs (u : String) (data : ScrapedData) :
    completionCount (successMsgs u data) = 0 := by
  unfold successMsgs
  split <;> simp [completionCount_append, completionCount]

theorem stepOk_scrapeAttempt (env : Env) (u : String) (st : WorkerState) :
    StepOk 1 st (scrapeAttempt env u st) := by
  unfold scrapeAttempt
  cases hs : env.scrape u with
  | none =>
    refine ⟨rfl, rfl, rfl, rfl, rfl, rfl, rfl, rfl, rfl, ?_, ⟨[], by simp, by simp⟩,
      Nat.le_add_right _ _, fun h => by simpa using h⟩
    show completionCount (st.msgs ++ [{ mtype := "error", text := _ }])
      = completionCount st.msgs
    simp [completionCount_append, completionCount]
  | some data =>
    refine ⟨rfl, rfl, rfl, rfl, rfl, rfl, rfl, rfl, rfl, ?_, ⟨[_], rfl, ?_⟩, ?_, ?_⟩
    · show completionCount (st.msgs ++ successMsgs u data) = completionCount st.msgs
      rw [completionCount_append, completionCount_successMsgs, Nat.add_zero]
    · rintro op hop
      simp only [List.mem_singleton] at hop
      exact ⟨_, _, hop⟩
    · show (st.scraped_pages ++ [u]).length ≤ st.scraped_pages.length + 1
      simp
    · intro h u' hu'
      show ∃ b, PersistOp.storePage u' b ∈ st.persists ++ [_]
      rcases List.mem_append.mp hu' with h' | h'
      · obtain ⟨b, hb⟩ := h u' h'
        exact ⟨b, List.mem_append_left _ hb⟩
      · simp only [List.mem_singleton] at h'
        subst h'
        exact ⟨_, List.mem_append_right _ (List.mem_singleton.mpr rfl)⟩

theorem stepOk_scrapeBody (env : Env) (total i : Nat) (u : String) (st : WorkerState) :
    StepOk 1 st (scrapeBody env total i u st) := by
  unfold scrapeBody
  have h1 : CtrlOk st (emit st "info"
      ("Scraping page " ++ toString (i + 1) ++ "/" ++ toString total ++ ": " ++ u)) :=
    ctrlOk_emit _ _ _ (by decide)
  have h2 := ctrlOk_trans h1 (ctrlOk_detailBlock u _)
  exact stepOk_trans (CtrlOk.stepOk (k := 0) h2) (stepOk_scrapeAttempt env u _)

theorem scrapeAttempt_fetches (env : Env) (u : String) (st : WorkerState) :
    (scrapeAttempt env u st).fetches = st.fetches ++ [u] := by
  unfold scrapeAttempt
  cases env.scrape u with
  | none => rfl
  | some data => rfl

theorem scrapeBody_fetches (env : Env) (total i : Nat) (u : String) (st : WorkerState) :
    (scrapeBody env total i u st).fetches = st.fetches ++ [u] := by
  unfold scrapeBody
  rw [scrapeAttempt_fetches]
  rfl

theorem ctrlOk_emitDetails (st : WorkerState) (l : List String) :
    CtrlOk st (emitDetails st l) := by
  induction l generalizing st with
  | nil => exact ctrlOk_refl st
  | cons x xs ih =>
    have h : emitDetails st (x :: xs)
        = emitDetails (emit st "detail" ("Match context: " ++ x)) xs := rfl
    rw [h]
    exact ctrlOk_trans (ctrlOk_emit _ _ _ (by decide)) (ih _)

/-! ## Loop-level lemmas -/

theorem stepOk_mono {k k' : Nat} {st r : WorkerState} (hk : k ≤ k')
    (h : StepOk k st r) : StepOk k' st r := by
  obtain ⟨e, t, n, s, f, q, p, rr, pp, c, o, l, v⟩ := h
  exact ⟨e, t, n, s, f, q, p, rr, pp, c, o, l.trans (Nat.add_le_add_left hk _), v⟩

theorem preOk_mono {k k' : Nat} {st r : WorkerState} (hk : k ≤ k')
    (h : PreOk k st r) : PreOk k' st r := by
  obtain ⟨p, q, rr, s, t, u, c, l⟩ := h
  exact ⟨p, q, rr, s, t, u, c, l.trans (Nat.add_le_add_left hk _)⟩

theorem stepOk_setChecks (st : WorkerState) (c : Nat) :
    StepOk 0 st { st with checks := c } := by
  refine ⟨rfl, rfl, rfl, rfl, rfl, rfl, rfl, rfl, rfl, rfl,
    ⟨[], by simp, by simp⟩, Nat.le_add_right _ _, fun h => h⟩

theorem preOk_setChecks (st : WorkerState) (c : Nat) :
    PreOk 0 st { st with checks := c } :=
  ⟨rfl, rfl, rfl, rfl, rfl, rfl, rfl, Nat.le_add_right _ _⟩

theorem preOk_setPagesChecked (st : WorkerState) (c : Nat) :
    PreOk 0 st { st with pages_checked := c } :=
  ⟨rfl, rfl, rfl, rfl, rfl, rfl, rfl, Nat.le_add_right _ _⟩

theorem preOk_appendFiltered (st : WorkerState) (u : String) :
    PreOk 1 st { st with filtered_pages := st.filtered_pages ++ [u] } :=
  ⟨rfl, rfl, rfl, rfl, rfl, rfl, rfl, by simp⟩

theorem preOk_prefilterMatch (st : WorkerState) (u : String) (ms : List String)
    (cs : List (String × String)) (mi : MetaInfo) :
    PreOk 1 st { st with
      pages_with_keywords := st.pages_with_keywords + 1,
      filtered_pages := st.filtered_pages ++ [u],
      kw_matches := st.kw_matches ++ [(u, ms)],
      kw_contexts := st.kw_contexts ++ [(u, cs)],
      meta_extracted := st.meta_extracted ++ [(u, mi)] } :=
  ⟨rfl, rfl, rfl, rfl, rfl, rfl, rfl, by simp⟩

theorem should_interrupt_none {env : Env} (h : env.interruptFrom = none) (k : Nat) :
    env.should_interrupt k = false := by
  simp [Env.should_interrupt, h]

theorem should_interrupt_zero {env : Env} (h : env.interruptFrom = some 0) (k : Nat) :
    env.should_interrupt k = true := by
  simp [Env.should_interrupt, h]

theorem scrapeLoop_stepOk (env : Env) (total : Nat) (pages : List String) :
    ∀ (i : Nat) (st : WorkerState),
    StepOk pages.length st (scrapeLoop env total pages i st).1 := by
  induction pages with
  | nil => intro i st; exact stepOk_refl 0 st
  | cons u rest ih =>
    intro i st
    simp only [scrapeLoop]
    split
    · exact stepOk_refl _ st
    · have hb : StepOk 1 st (scrapeBody env total i u st) :=
        stepOk_scrapeBody env total i u st
      have hc : StepOk 1 st { scrapeBody env total i u st with
          checks := (scrapeBody env total i u st).checks + 1 } :=
        stepOk_trans hb (stepOk_setChecks (scrapeBody env total i u st)
          ((scrapeBody env total i u st).checks + 1))
      split
      · exact stepOk_mono (by simp only [List.length_cons]; omega)
          (stepOk_trans hc (CtrlOk.stepOk (k := 0) (ctrlOk_emit _ _ _ (by decide))))
      · exact stepOk_mono (by simp only [List.length_cons]; omega)
          (stepOk_trans hc (ih (i + 1) _))

theorem prefilterLoop_preOk (env : Env) (kws : List String) (im : Bool)
    (pages : List String) : ∀ (i : Nat) (st : WorkerState),
    PreOk pages.length st (prefilterLoop env kws im pages i st).1 := by
  induction pages with
  | nil => intro i st; exact preOk_refl 0 st
  | cons u rest ih =>
    intro i st
    simp only [prefilterLoop]
    split
    · exact preOk_mono (Nat.zero_le _) (preOk_trans (preOk_setChecks st _)
        (CtrlOk.preOk (k := 0) (ctrlOk_emit _ _ _ (by decide))))
    · split
      · refine preOk_mono (by simp only [List.length_cons]; omega)
          (preOk_trans (?_ : PreOk 1 st _) (ih (i + 1) _))
        refine ⟨rfl, rfl, rfl, rfl, rfl, rfl, ?_, ?_⟩
        · show completionCount (st.msgs ++ _ ++ _) = completionCount st.msgs
          simp [completionCount_append, completionCount]
        · show (st.filtered_pages ++ [u]).length ≤ st.filtered_pages.length + 1
          simp
      · split
        · refine preOk_mono (by simp only [List.length_cons]; omega)
            (preOk_trans (preOk_trans (?_ : PreOk 1 st _)
              (CtrlOk.preOk (k := 0) (ctrlOk_emitDetails _ _))) (ih (i + 1) _))
          refine ⟨rfl, rfl, rfl, rfl, rfl, rfl, ?_, ?_⟩
          · show completionCount (st.msgs ++ _ ++ _) = completionCount st.msgs
            simp [completionCount_append, completionCount]
          · show (st.filtered_pages ++ [u]).length ≤ st.filtered_pages.length + 1
            simp
        · refine preOk_mono (by simp only [List.length_cons]; omega)
            (preOk_trans (?_ : PreOk 0 st _) (ih (i + 1) _))
          refine ⟨rfl, rfl, rfl, rfl, rfl, rfl, ?_, Nat.le_add_right _ _⟩
          show completionCount (st.msgs ++ _ ++ _) = completionCount st.msgs
          simp [completionCount_append, completionCount]

/-! ## Exact path lemmas for the prefilter and fetch loops -/

theorem prefilterLoop_skip_step (env : Env) (kws : List String) (im : Bool)
    (u : String) (rest : List String) (i : Nat) (st : WorkerState)
    (hni : env.should_interrupt (st.checks + 1) = false)
    (hr : env.checkRaises u = false)
    (hc : (check_page_for_keywords (env.fetchPage u) kws im).contains_keywords = false) :
    prefilterLoop env kws im (u :: rest) i st =
      prefilterLoop env kws im rest (i + 1)
        (emit (emit { st with checks := st.checks + 1, pages_checked := st.pages_checked + 1 }
          "info" ("Checking page " ++ toString (st.pages_checked + 1) ++ " for keywords: " ++ u))
          "warning" ("Page " ++ u ++ " does not contain any keywords, skipping")) := by
  simp [prefilterLoop, hni, hr, hc]

theorem prefilterLoop_raise_step (env : Env) (kws : List String) (im : Bool)
    (u : String) (rest : List String) (i : Nat) (st : WorkerState)
    (hni : env.should_interrupt (st.checks + 1) = false)
    (hr : env.checkRaises u = true) :
    prefilterLoop env kws im (u :: rest) i st =
      prefilterLoop env kws im rest (i + 1)
        { emit (emit { st with checks := st.checks + 1, pages_checked := st.pages_checked + 1 }
            "info" ("Checking page " ++ toString (st.pages_checked + 1) ++ " for keywords: " ++ u))
            "error" ("Error checking keywords in " ++ u) with
          filtered_pages := st.filtered_pages ++ [u] } := by
  simp [prefilterLoop, hni, hr]

theorem prefilterLoop_interrupt_now (env : Env) (kws : List String) (im : Bool)
    (u : String) (rest : List String) (i : Nat) (st : WorkerState)
    (hj : env.should_interrupt (st.checks + 1) = true) :
    prefilterLoop env kws im (u :: rest) i st =
      (emit { st with checks := st.checks + 1 } "warning"
        ("Filtering interrupted after checking " ++ toString i ++ " pages"),
       PrefilterExit.interrupted) := by
  simp [prefilterLoop, hj]

theorem scrapeLoop_interrupt_first (env : Env) (total : Nat)
    (u : String) (rest : List String) (i : Nat) (st : WorkerState)
    (hu : (env.uncaughtAt == some i) = false)
    (hj : env.should_interrupt ((scrapeBody env total i u st).checks + 1) = true) :
    scrapeLoop env total (u :: rest) i st =
      (emit { scrapeBody env total i u st with
          checks := (scrapeBody env total i u st).checks + 1 } "warning"
        ("Scraping interrupted after processing " ++ toString (i + 1) ++ " pages"),
       ScrapeExit.interrupted) := by
  simp [scrapeLoop, hu, hj]

theorem prefilterLoop_nomatch (env : Env) (kws : List String) (im : Bool)
    (hint : env.interruptFrom = none) (pages : List String) :
    ∀ (i : Nat) (st : WorkerState),
    (∀ u ∈ pages, env.checkRaises u = false ∧
      (check_page_for_keywords (env.fetchPage u) kws im).contains_keywords = false) →
    (prefilterLoop env kws im pages i st).2 = PrefilterExit.normal ∧
    (prefilterLoop env kws im pages i st).1.filtered_pages = st.filtered_pages ∧
    (prefilterLoop env kws im pages i st).1.pages_with_keywords = st.pages_with_keywords ∧
    (prefilterLoop env kws im pages i st).1.pages_checked
      = st.pages_checked + pages.length ∧
    (prefilterLoop env kws im pages i st).1.ps = st.ps ∧
    (prefilterLoop env kws im pages i st).1.persists = st.persists := by
  induction pages with
  | nil => intro i st _; exact ⟨rfl, rfl, rfl, rfl, rfl, rfl⟩
  | cons u rest ih =>
    intro i st hall
    obtain ⟨hr, hc⟩ := hall u (List.mem_cons_self u rest)
    have hrest : ∀ v ∈ rest, env.checkRaises v = false ∧
        (check_page_for_keywords (env.fetchPage v) kws im).contains_keywords = false :=
      fun v hv => hall v (List.mem_cons_of_mem _ hv)
    rw [prefilterLoop_skip_step env kws im u rest i st
      (should_interrupt_none hint _) hr hc]
    obtain ⟨g1, g2, g3, g4, g5, g6⟩ := ih (i + 1) _ hrest
    refine ⟨g1, g2.trans rfl, g3.trans rfl, ?_, g5.trans rfl, g6.trans rfl⟩
    rw [g4]
    show st.pages_checked + 1 + rest.length = st.pages_checked + (u :: rest).length
    simp only [List.length_cons]
    omega

/-! ## Terminal path lemmas -/

theorem handle_interruption_spec (st : WorkerState) :
    (handle_interruption st).ps.extraction_status = STATUS_INTERRUPTED ∧
    (handle_interruption st).ps.end_time = some "utcnow" ∧
    (handle_interruption st).ps.end_time_sets = st.ps.end_time_sets + 1 ∧
    (handle_interruption st).ps.pages_scraped = st.ps.pages_scraped ∧
    (handle_interruption st).ps.pages_found = st.ps.pages_found ∧
    (handle_interruption st).ps.keyword_search_results = st.ps.keyword_search_results ∧
    (handle_interruption st).ps.pages_checked = st.ps.pages_checked ∧
    (handle_interruption st).registry_status = STATUS_INTERRUPTED ∧
    (handle_interruption st).pages_to_process = st.pages_to_process ∧
    completionCount (handle_interruption st).msgs = completionCount st.msgs + 1 ∧
    (handle_interruption st).msgs.getLast?
      = some (completionMessage st.ps.pages_found st.ps.pages_scraped
          (some STATUS_INTERRUPTED)) ∧
    (handle_interruption st).persists
      = st.persists ++ [PersistOp.fullStatusUpdate (handle_interruption st).ps] ∧
    (handle_interruption st).scraped_pages = st.scraped_pages ∧
    (handle_interruption st).fetches = st.fetches := by
  refine ⟨rfl, rfl, rfl, rfl, rfl, rfl, rfl, rfl, rfl, ?_, ?_, rfl, rfl, rfl⟩
  · show completionCount (st.msgs ++ _ ++ [completionMessage _ _ _])
      = completionCount st.msgs + 1
    simp [completionCount_append, completionCount, completionMessage, emit_msgs]
  · show (_ ++ [completionMessage _ _ _]).getLast? = _
    rw [getLast_append_singleton]
    rfl

theorem completedPath_spec (st : WorkerState) :
    (completedPath st).ps.extraction_status = STATUS_COMPLETED ∧
    (completedPath st).ps.end_time = some "utcnow" ∧
    (completedPath st).ps.end_time_sets = st.ps.end_time_sets + 1 ∧
    (completedPath st).ps.pages_scraped = st.scraped_pages.length ∧
    (completedPath st).ps.pages_found = st.ps.pages_found ∧
    (completedPath st).ps.keyword_search_results = st.ps.keyword_search_results ∧
    (completedPath st).ps.pages_checked = st.ps.pages_checked ∧
    (completedPath st).registry_status = st.registry_status ∧
    (completedPath st).pages_to_process = st.pages_to_process ∧
    completionCount (completedPath st).msgs = completionCount st.msgs + 1 ∧
    (completedPath st).msgs.getLast?
      = some (completionMessage st.ps.pages_found st.scraped_pages.length none) ∧
    (completedPath st).persists
      = st.persists
        ++ [PersistOp.completedUpdate st.scraped_pages st.scraped_pages.length,
            PersistOp.finalKeywordUpdate st.kw_matches st.pages_with_keywords
              st.pages_checked (!st.ps.search_keywords.isEmpty)] ∧
    (completedPath st).scraped_pages = st.scraped_pages ∧
    (completedPath st).fetches = st.fetches := by
  refine ⟨rfl, rfl, rfl, rfl, rfl, rfl, rfl, rfl, rfl, ?_, ?_, ?_, rfl, rfl⟩
  · show completionCount (st.msgs ++ _ ++ [completionMessage _ _ _])
      = completionCount st.msgs + 1
    simp [completionCount_append, completionCount, completionMessage, emit_msgs]
  · show (_ ++ [completionMessage _ _ _]).getLast? = _
    rw [getLast_append_singleton]
    rfl
  · show st.persists ++ [_] ++ [_] = st.persists ++ _
    simp
    rfl

theorem errorPath_spec (st : WorkerState) :
    (errorPath st).ps.extraction_status = STATUS_ERROR ∧
    (errorPath st).ps.end_time = some "utcnow" ∧
    (errorPath st).ps.end_time_sets = st.ps.end_time_sets + 1 ∧
    (errorPath st).ps.pages_scraped = st.ps.pages_scraped ∧
    (errorPath st).ps.pages_found = st.ps.pages_found ∧
    (errorPath st).ps.keyword_search_results = st.ps.keyword_search_results ∧
    (errorPath st).ps.pages_checked = st.ps.pages_checked ∧
    (errorPath st).registry_status = STATUS_ERROR ∧
    (errorPath st).pages_to_process = st.pages_to_process ∧
    completionCount (errorPath st).msgs = completionCount st.msgs ∧
    (errorPath st).persists
      = st.persists ++ [PersistOp.fullStatusUpdate (errorPath st).ps] ∧
    (errorPath st).scraped_pages = st.scraped_pages ∧
    (errorPath st).fetches = st.fetches := by
  refine ⟨rfl, rfl, rfl, rfl, rfl, rfl, rfl, rfl, rfl, ?_, rfl, rfl, rfl⟩
  show completionCount (st.msgs ++ _) = completionCount st.msgs
  simp [completionCount_append, completionCount, emit_msgs]

/-! ## Phase-level lemma for the scrape phase -/

theorem scrapePhase_spec (env : Env) (st : WorkerState)
    (hc : completionCount st.msgs = 0)
    (hn : st.ps.end_time_sets = 0)
    (hz : st.ps.pages_scraped = 0)
    (hsc : st.scraped_pages = []) :
    ((scrapePhase env st).ps.extraction_status = STATUS_COMPLETED ∨
     (scrapePhase env st).ps.extraction_status = STATUS_INTERRUPTED ∨
     (scrapePhase env st).ps.extraction_status = STATUS_ERROR) ∧
    (scrapePhase env st).ps.end_time = some "utcnow" ∧
    (scrapePhase env st).ps.end_time_sets = 1 ∧
    (((scrapePhase env st).ps.extraction_status = STATUS_COMPLETED ∨
      (scrapePhase env st).ps.extraction_status = STATUS_INTERRUPTED) →
      completionCount (scrapePhase env st).msgs = 1 ∧
      (scrapePhase env st).msgs.getLast?.map Message.mtype = some "completion") ∧
    ((scrapePhase env st).ps.extraction_status = STATUS_ERROR →
      completionCount (scrapePhase env st).msgs = 0) ∧
    (∃ ops, (scrapePhase env st).persists = st.persists ++ ops) ∧
    (∀ ps', PersistOp.fullStatusUpdate ps' ∈ (scrapePhase env st).persists →
      PersistOp.fullStatusUpdate ps' ∈ st.persists ∨ ps'.pages_scraped = 0) ∧
    ((scrapePhase env st).ps.extraction_status ≠ STATUS_COMPLETED →
      (∀ l n, PersistOp.completedUpdate l n ∈ (scrapePhase env st).persists →
        PersistOp.completedUpdate l n ∈ st.persists) ∧
      (scrapePhase env st).ps.pages_scraped = 0) ∧
    (∀ u ∈ (scrapePhase env st).scraped_pages, ∃ b,
      PersistOp.storePage u b ∈ (scrapePhase env st).persists) ∧
    (scrapePhase env st).ps.pages_scraped ≤ st.pages_to_process.length ∧
    (scrapePhase env st).ps.pages_found = st.ps.pages_found ∧
    (scrapePhase env st).pages_to_process = st.pages_to_process ∧
    (scrapePhase env st).ps.keyword_search_results = st.ps.keyword_search_results ∧
    (scrapePhase env st).ps.pages_checked = st.ps.pages_checked := by
  have hcov0 : ∀ u ∈ st.scraped_pages, ∃ b, PersistOp.storePage u b ∈ st.persists := by
    intro u hu; rw [hsc] at hu; cases hu
  simp only [scrapePhase]
  set st1 := emit st "info"
    ("Starting to scrape " ++ toString st.pages_to_process.length ++ " pages") with hst1
  have hOk : StepOk st.pages_to_process.length st
      (scrapeLoop env st1.pages_to_process.length st1.pages_to_process 0 st1).1 := by
    refine stepOk_mono (k := 0 + st1.pages_to_process.length) (by simp [hst1]) ?_
    exact stepOk_trans (CtrlOk.stepOk (k := 0) (ctrlOk_emit st _ _ (by decide)))
      (scrapeLoop_stepOk env st1.pages_to_process.length st1.pages_to_process 0 st1)
  set L := (scrapeLoop env st1.pages_to_process.length st1.pages_to_process 0 st1).1 with hL
  obtain ⟨e, t, n, s, f, ksr, pc, rg, pt, cc, ⟨ops, hops, hstore⟩, ln, cov⟩ := hOk
  have hccL : completionCount L.msgs = 0 := cc.trans hc
  have hnL : L.ps.end_time_sets = 0 := n.trans hn
  have hzL : L.ps.pages_scraped = 0 := s.trans hz
  have hlnL : L.scraped_pages.length ≤ st.pages_to_process.length := by
    have := ln
    rw [hsc] at this
    simpa using this
  have hcovL : ∀ u ∈ L.scraped_pages, ∃ b, PersistOp.storePage u b ∈ L.persists :=
    cov hcov0
  have hmemL : ∀ op ∈ L.persists, op ∈ st.persists ∨ ∃ u b,
      op = PersistOp.storePage u b := by
    intro op hop
    rw [hops] at hop
    rcases List.mem_append.mp hop with h | h
    · exact Or.inl h
    · exact Or.inr (hstore op h)
  cases hx : (scrapeLoop env st1.pages_to_process.length st1.pages_to_process 0 st1).2 with
  | interrupted =>
    dsimp only
    obtain ⟨H1, H2, H3, H4, H5, H6, H7, H8, H9, H10, H11, H12, H13, H14⟩ :=
      handle_interruption_spec L
    refine ⟨Or.inr (Or.inl H1), H2, by rw [H3, hnL], ?_, ?_, ?_, ?_, ?_, ?_, ?_, ?_, ?_, ?_, ?_⟩
    · intro _
      constructor
      · rw [H10, hccL]
      · rw [H11]; rfl
    · intro habs
      exact absurd (H1.symm.trans habs) (by decide)
    · exact ⟨ops ++ [PersistOp.fullStatusUpdate (handle_interruption L).ps],
        by rw [H12, hops, List.append_assoc]⟩
    · intro ps' hps'
      rw [H12] at hps'
      rcases List.mem_append.mp hps' with h | h
      · rcases hmemL _ h with h' | ⟨u, b, h'⟩
        · exact Or.inl h'
        · cases h'
      · simp only [List.mem_singleton, PersistOp.fullStatusUpdate.injEq] at h
        subst h
        exact Or.inr (by rw [H4, hzL])
    · intro _
      constructor
      · intro l nn hmem
        rw [H12] at hmem
        rcases List.mem_append.mp hmem with h | h
        · rcases hmemL _ h with h' | ⟨u, b, h'⟩
          · exact h'
          · cases h'
        · simp at h
      · rw [H4, hzL]
    · intro u hu
      rw [H13] at hu
      obtain ⟨b, hb⟩ := hcovL u hu
      exact ⟨b, by rw [H12]; exact List.mem_append_left _ hb⟩
    · rw [H4, hzL]; exact Nat.zero_le _
    · rw [H5, f]
    · rw [H9, pt]
    · rw [H6, ksr]
    · rw [H7, pc]
  | uncaught =>
    dsimp only
    obtain ⟨E1, E2, E3, E4, E5, E6, E7, E8, E9, E10, E11, E12, E13⟩ := errorPath_spec L
    refine ⟨Or.inr (Or.inr E1), E2, by rw [E3, hnL], ?_, ?_, ?_, ?_, ?_, ?_, ?_, ?_, ?_, ?_, ?_⟩
    · intro habs
      rcases habs with habs | habs
      · exact absurd (E1.symm.trans habs) (by decide)
      · exact absurd (E1.symm.trans habs) (by decide)
    · intro _
      rw [E10, hccL]
    · exact ⟨ops ++ [PersistOp.fullStatusUpdate (errorPath L).ps],
        by rw [E11, hops, List.append_assoc]⟩
    · intro ps' hps'
      rw [E11] at hps'
      rcases List.mem_append.mp hps' with h | h
      · rcases hmemL _ h with h' | ⟨u, b, h'⟩
        · exact Or.inl h'
        · cases h'
      · simp only [List.mem_singleton, PersistOp.fullStatusUpdate.injEq] at h
        subst h
        exact Or.inr (by rw [E4, hzL])
    · intro _
      constructor
      · intro l nn hmem
        rw [E11] at hmem
        rcases List.mem_append.mp hmem with h | h
        · rcases hmemL _ h with h' | ⟨u, b, h'⟩
          · exact h'
          · cases h'
        · simp at h
      · rw [E4, hzL]
    · intro u hu
      rw [E12] at hu
      obtain ⟨b, hb⟩ := hcovL u hu
      exact ⟨b, by rw [E11]; exact List.mem_append_left _ hb⟩
    · rw [E4, hzL]; exact Nat.zero_le _
    · rw [E5, f]
    · rw [E9, pt]
    · rw [E6, ksr]
    · rw [E7, pc]
  | normal =>
    dsimp only
    obtain ⟨C1, C2, C3, C4, C5, C6, C7, C8, C9, C10, C11, C12, C13, C14⟩ :=
      completedPath_spec L
    refine ⟨Or.inl C1, C2, by rw [C3, hnL], ?_, ?_, ?_, ?_, ?_, ?_, ?_, ?_, ?_, ?_, ?_⟩
    · intro _
      constructor
      · rw [C10, hccL]
      · rw [C11]; rfl
    · intro habs
      exact absurd (C1.symm.trans habs) (by decide)
    · exact ⟨ops ++ [PersistOp.completedUpdate L.scraped_pages L.scraped_pages.length,
        PersistOp.finalKeywordUpdate L.kw_matches L.pages_with_keywords L.pages_checked
          (!L.ps.search_keywords.isEmpty)],
        by rw [C12, hops, List.append_assoc]⟩
    · intro ps' hps'
      rw [C12] at hps'
      rcases List.mem_append.mp hps' with h | h
      · rcases hmemL _ h with h' | ⟨u, b, h'⟩
        · exact Or.inl h'
        · cases h'
      · simp at h
    · intro habs
      exact absurd C1 habs
    · intro u hu
      rw [C13] at hu
      obtain ⟨b, hb⟩ := hcovL u hu
      exact ⟨b, by rw [C12]; exact List.mem_append_left _ hb⟩
    · rw [C4]; exact hlnL
    · rw [C5, f]
    · rw [C9, pt]
    · rw [C6, ksr]
    · rw [C7, pc]

/-! ## Stage lemmas (initial emits, robots and sitemap stages) -/

def StageOk (st r : WorkerState) : Prop :=
  r.ps.extraction_status = st.ps.extraction_status ∧
  r.ps.end_time = st.ps.end_time ∧
  r.ps.end_time_sets = st.ps.end_time_sets ∧
  r.ps.pages_scraped = st.ps.pages_scraped ∧
  r.ps.keyword_search_results = st.ps.keyword_search_results ∧
  r.ps.pages_checked = st.ps.pages_checked ∧
  r.persists = st.persists ∧
  r.scraped_pages = st.scraped_pages ∧
  r.registry_status = st.registry_status ∧
  r.pages_to_process = st.pages_to_process ∧
  r.fetches = st.fetches ∧
  r.filtered_pages = st.filtered_pages ∧
  r.pages_with_keywords = st.pages_with_keywords ∧
  r.pages_checked = st.pages_checked ∧
  completionCount r.msgs = completionCount st.msgs

theorem stageOk_trans {a b c : WorkerState} (h1 : StageOk a b) (h2 : StageOk b c) :
    StageOk a c := by
  obtain ⟨a1, a2, a3, a4, a5, a6, a7, a8, a9, a10, a11, a12, a13, a14, a15⟩ := h1
  obtain ⟨b1, b2, b3, b4, b5, b6, b7, b8, b9, b10, b11, b12, b13, b14, b15⟩ := h2
  exact ⟨b1.trans a1, b2.trans a2, b3.trans a3, b4.trans a4, b5.trans a5,
    b6.trans a6, b7.trans a7, b8.trans a8, b9.trans a9, b10.trans a10,
    b11.trans a11, b12.trans a12, b13.trans a13, b14.trans a14, b15.trans a15⟩

theorem stageOk_refl (st : WorkerState) : StageOk st st :=
  ⟨rfl, rfl, rfl, rfl, rfl, rfl, rfl, rfl, rfl, rfl, rfl, rfl, rfl, rfl, rfl⟩

theorem stageOk_emit (st : WorkerState) (t x : String)
    (h : (t == "completion") = false) : StageOk st (emit st t x) :=
  ⟨rfl, rfl, rfl, rfl, rfl, rfl, rfl, rfl, rfl, rfl, rfl, rfl, rfl, rfl,
    completionCount_emit st t x h⟩

theorem robotsStage_stageOk (env : Env) (url : String) (st : WorkerState) :
    StageOk st (robotsStage env url st) ∧
    (robotsStage env url st).ps.pages_found = st.ps.pages_found := by
  unfold robotsStage
  cases env.robots <;>
  · refine ⟨⟨rfl, rfl, rfl, rfl, rfl, rfl, rfl, rfl, rfl, rfl, rfl, rfl, rfl, rfl, ?_⟩, rfl⟩
    show completionCount (st.msgs ++ _ ++ _) = completionCount st.msgs
    simp [completionCount_append, completionCount]

theorem sitemapStage_stageOk (env : Env) (url : String) (st : WorkerState) :
    StageOk st (sitemapStage env url st) := by
  unfold sitemapStage
  cases env.sitemap with
  | returns urls =>
    dsimp only
    split <;>
    · refine ⟨rfl, rfl, rfl, rfl, rfl, rfl, rfl, rfl, rfl, rfl, rfl, rfl, rfl, rfl, ?_⟩
      show completionCount (st.msgs ++ _ ++ _) = completionCount st.msgs
      simp [completionCount_append, completionCount]
  | raises =>
    refine ⟨rfl, rfl, rfl, rfl, rfl, rfl, rfl, rfl, rfl, rfl, rfl, rfl, rfl, rfl, ?_⟩
    show completionCount (st.msgs ++ _ ++ _) = completionCount st.msgs
    simp [completionCount_append, completionCount]

theorem sitemapStage_pages_found (env : Env) (url : String) (st : WorkerState)
    (urls : List String) (h : env.sitemap = SitemapOutcome.returns urls)
    (hne : urls ≠ []) :
    (sitemapStage env url st).ps.pages_found = (discoveredPages env url).length := by
  have hie : urls.isEmpty = false := by
    simpa [List.isEmpty_iff] using hne
  simp [sitemapStage, discoveredPages, h, hie]

theorem postPrefilter_spec (sp : List String) (pl : Nat) (kws : List String)
    (st : WorkerState) :
    (postPrefilter sp pl kws st).ps.extraction_status = st.ps.extraction_status ∧
    (postPrefilter sp pl kws st).ps.end_time = st.ps.end_time ∧
    (postPrefilter sp pl kws st).ps.end_time_sets = st.ps.end_time_sets ∧
    (postPrefilter sp pl kws st).ps.pages_scraped = st.ps.pages_scraped ∧
    (postPrefilter sp pl kws st).ps.pages_found = st.ps.pages_found ∧
    ((postPrefilter sp pl kws st).persists = st.persists ∨
      (postPrefilter sp pl kws st).persists
        = st.persists ++ [PersistOp.noMatchesUpdate st.pages_checked kws]) ∧
    (postPrefilter sp pl kws st).scraped_pages = st.scraped_pages ∧
    completionCount (postPrefilter sp pl kws st).msgs = completionCount st.msgs ∧
    ((postPrefilter sp pl kws st).pages_to_process = st.filtered_pages ∨
      (postPrefilter sp pl kws st).pages_to_process = sp.take (min pl sp.length)) := by
  unfold postPrefilter
  split <;> (dsimp only; split) <;>
  · refine ⟨rfl, rfl, rfl, rfl, rfl, ?_, rfl, ?_, ?_⟩
    · first
        | exact Or.inl rfl
        | exact Or.inr rfl
    · show completionCount (st.msgs ++ _ ++ _) = completionCount st.msgs
      simp [completionCount_append, completionCount]
    · first
        | exact Or.inl rfl
        | exact Or.inr rfl


theorem stageOk_kwblock (s : WorkerState) (kws : List String) (im : Bool) :
    StageOk s (if kws.isEmpty then s
      else if im then
        emit (emit s "info" ("Using keyword filter: " ++ String.intercalate ", " kws))
          "info" "Including meta information in keyword search"
      else emit s "info" ("Using keyword filter: " ++ String.intercalate ", " kws)) := by
  split
  · exact stageOk_refl s
  · split
    · exact stageOk_trans (stageOk_emit _ _ _ (by decide)) (stageOk_emit _ _ _ (by decide))
    · exact stageOk_emit _ _ _ (by decide)

theorem stagedState_stageOk (env : Env) (url scrape_mode : String) (pages_limit : Nat)
    (search_keywords : List String) (include_meta : Bool) :
    StageOk (initWorkerState scrape_mode pages_limit search_keywords include_meta)
      (stagedState env url scrape_mode pages_limit search_keywords include_meta) := by
  unfold stagedState
  exact stageOk_trans (stageOk_trans (stageOk_trans
    (stageOk_emit _ "info" ("Starting extraction process for " ++ url) (by decide))
    (stageOk_kwblock _ search_keywords include_meta))
      (robotsStage_stageOk env url _).1) (sitemapStage_stageOk env url _)

theorem stagedState_pages_found (env : Env) (url scrape_mode : String)
    (pages_limit : Nat) (search_keywords : List String) (include_meta : Bool)
    (urls : List String) (h : env.sitemap = SitemapOutcome.returns urls)
    (hne : urls ≠ []) :
    (stagedState env url scrape_mode pages_limit search_keywords
      include_meta).ps.pages_found = (discoveredPages env url).length := by
  unfold stagedState
  exact sitemapStage_pages_found env url _ urls h hne

/-! ## Whole-run lemma -/

theorem run_spec (env : Env) (url scrape_mode : String) (pages_limit : Nat)
    (search_keywords : List String) (include_meta : Bool) (r : WorkerState)
    (hr : r = run_extraction_thread env url scrape_mode pages_limit
      search_keywords include_meta) :
    (r.ps.extraction_status = STATUS_COMPLETED ∨
     r.ps.extraction_status = STATUS_INTERRUPTED ∨
     r.ps.extraction_status = STATUS_ERROR) ∧
    r.ps.end_time = some "utcnow" ∧
    r.ps.end_time_sets = 1 ∧
    ((r.ps.extraction_status = STATUS_COMPLETED ∨
      r.ps.extraction_status = STATUS_INTERRUPTED) →
      completionCount r.msgs = 1 ∧
      r.msgs.getLast?.map Message.mtype = some "completion") ∧
    (r.ps.extraction_status = STATUS_ERROR → completionCount r.msgs = 0) ∧
    (∀ ps', PersistOp.fullStatusUpdate ps' ∈ r.persists → ps'.pages_scraped = 0) ∧
    (r.ps.extraction_status ≠ STATUS_COMPLETED →
      (∀ l n, PersistOp.completedUpdate l n ∉ r.persists) ∧
      r.ps.pages_scraped = 0) ∧
    (∀ u ∈ r.scraped_pages, ∃ b, PersistOp.storePage u b ∈ r.persists) ∧
    r.ps.pages_scraped ≤ r.pages_to_process.length ∧
    r.pages_to_process.length ≤ (discoveredPages env url).length ∧
    (∀ urls, env.sitemap = SitemapOutcome.returns urls → urls ≠ [] →
      r.ps.pages_found = (discoveredPages env url).length) := by
  subst hr
  obtain ⟨q1, q2, q3, q4, q5, q6, q7, q8, q9, q10, q11, q12, q13, q14, q15⟩ :=
    stagedState_stageOk env url scrape_mode pages_limit search_keywords include_meta
  set SB := stagedState env url scrape_mode pages_limit search_keywords include_meta
    with hSBdef
  cases hk : search_keywords.isEmpty with
  | true =>
    simp only [run_extraction_thread, hk, if_true]
    set ST := { SB with pages_to_process :=
      (discoveredPages env url).take pages_limit } with hST
    have hc : completionCount ST.msgs = 0 := by
      show completionCount SB.msgs = 0
      rw [q15]; rfl
    have hn : ST.ps.end_time_sets = 0 := by
      show SB.ps.end_time_sets = 0
      rw [q3]; rfl
    have hz : ST.ps.pages_scraped = 0 := by
      show SB.ps.pages_scraped = 0
      rw [q4]; rfl
    have hsc : ST.scraped_pages = [] := by
      show SB.scraped_pages = []
      rw [q8]; rfl
    have hpe : ST.persists = [] := by
      show SB.persists = []
      rw [q7]; rfl
    obtain ⟨P1, P2, P3, P4, P5, P6, P7, P8, P9, P10, P11, P12, P13, P14⟩ :=
      scrapePhase_spec env ST hc hn hz hsc
    refine ⟨P1, P2, P3, P4, P5, ?_, ?_, P9, ?_, ?_, ?_⟩
    · intro ps' hmem
      rcases P7 ps' hmem with h | h
      · rw [hpe] at h; cases h
      · exact h
    · intro hne
      refine ⟨?_, (P8 hne).2⟩
      intro l n hmem
      have := (P8 hne).1 l n hmem
      rw [hpe] at this; cases this
    · rw [P12]; exact P10
    · rw [P12]
      show ((discoveredPages env url).take pages_limit).length
        ≤ (discoveredPages env url).length
      rw [List.length_take]
      exact min_le_right _ _
    · intro urls h hne
      rw [P11]
      exact stagedState_pages_found env url scrape_mode pages_limit search_keywords
        include_meta urls h hne
  | false =>
    simp only [run_extraction_thread, hk, Bool.false_eq_true, if_false]
    set PB := emit SB "info"
      ("Filtering pages by keywords: " ++ String.intercalate ", " search_keywords)
      with hPBdef
    have hfil : StageOk SB PB := stageOk_emit _ _ _ (by decide)
    obtain ⟨f1, f2, f3, f4, f5, f6, f7, f8, f9, f10, f11, f12, f13, f14, f15⟩ := hfil
    set P := (prefilterLoop env search_keywords include_meta
      ((discoveredPages env url).take pages_limit) 0 PB).1 with hP
    obtain ⟨w1, w2, w3, w4, w5, w6, w7, w8⟩ :=
      prefilterLoop_preOk env search_keywords include_meta
        ((discoveredPages env url).take pages_limit) 0 PB
    have hPset : P.ps.end_time_sets = 0 := by rw [w1, f3, q3]; rfl
    have hPscr : P.ps.pages_scraped = 0 := by rw [w1, f4, q4]; rfl
    have hPcount : completionCount P.msgs = 0 := by rw [w7, f15, q15]; rfl
    have hPpers : P.persists = [] := by rw [w2, f7, q7]; rfl
    have hPscraped : P.scraped_pages = [] := by rw [w3, f8, q8]; rfl
    have hPptp : P.pages_to_process = [] := by rw [w5, f10, q10]; rfl
    have hPfound : ∀ urls, env.sitemap = SitemapOutcome.returns urls → urls ≠ [] →
        P.ps.pages_found = (discoveredPages env url).length := by
      intro urls h hne
      rw [w1]
      exact stagedState_pages_found env url scrape_mode pages_limit search_keywords
        include_meta urls h hne
    have hPBfilt : PB.filtered_pages = [] := f12.trans (q12.trans rfl)
    have hPfiltlen : P.filtered_pages.length
        ≤ ((discoveredPages env url).take pages_limit).length := by
      have h8 := w8
      rw [hPBfilt] at h8
      simpa using h8
    cases hpx : (prefilterLoop env search_keywords include_meta
        ((discoveredPages env url).take pages_limit) 0 PB).2 with
    | interrupted =>
      dsimp only
      obtain ⟨H1, H2, H3, H4, H5, H6, H7, H8, H9, H10, H11, H12, H13, H14⟩ :=
        handle_interruption_spec P
      refine ⟨Or.inr (Or.inl H1), H2, ?_, ?_, ?_, ?_, ?_, ?_, ?_, ?_, ?_⟩
      · rw [H3, hPset]
      · intro _
        exact ⟨by rw [H10, hPcount], by rw [H11]; rfl⟩
      · intro habs
        exact absurd (H1.symm.trans habs) (by decide)
      · intro ps' hmem
        rw [H12, hPpers] at hmem
        simp only [List.nil_append, List.mem_singleton,
          PersistOp.fullStatusUpdate.injEq] at hmem
        subst hmem
        rw [H4, hPscr]
      · intro _
        refine ⟨?_, by rw [H4, hPscr]⟩
        intro l n hmem
        rw [H12, hPpers] at hmem
        simp at hmem
      · intro u hu
        rw [H13, hPscraped] at hu
        cases hu
      · rw [H4, hPscr]
        exact Nat.zero_le _
      · rw [H9, hPptp]
        exact Nat.zero_le _
      · intro urls h hne
        rw [H5]
        exact hPfound urls h hne
    | normal =>
      dsimp only
      obtain ⟨u1, u2, u3, u4, u5, u6, u7, u8, u9⟩ :=
        postPrefilter_spec (discoveredPages env url) pages_limit search_keywords P
      have hqc : completionCount (postPrefilter (discoveredPages env url) pages_limit
          search_keywords P).msgs = 0 := by rw [u8, hPcount]
      have hqn : (postPrefilter (discoveredPages env url) pages_limit
          search_keywords P).ps.end_time_sets = 0 := by rw [u3, hPset]
      have hqz : (postPrefilter (discoveredPages env url) pages_limit
          search_keywords P).ps.pages_scraped = 0 := by rw [u4, hPscr]
      have hqs : (postPrefilter (discoveredPages env url) pages_limit
          search_keywords P).scraped_pages = [] := by rw [u7, hPscraped]
      obtain ⟨P1, P2, P3, P4, P5, P6, P7, P8, P9, P10, P11, P12, P13, P14⟩ :=
        scrapePhase_spec env _ hqc hqn hqz hqs
      have hqpers : ∀ op ∈ (postPrefilter (discoveredPages env url) pages_limit
          search_keywords P).persists,
          op = PersistOp.noMatchesUpdate P.pages_checked search_keywords := by
        intro op hop
        rcases u6 with h | h
        · rw [h, hPpers] at hop
          cases hop
        · rw [h, hPpers] at hop
          simpa using hop
      refine ⟨P1, P2, P3, P4, P5, ?_, ?_, P9, ?_, ?_, ?_⟩
      · intro ps' hmem
        rcases P7 ps' hmem with h | h
        · have := hqpers _ h
          simp at this
        · exact h
      · intro hne
        refine ⟨?_, (P8 hne).2⟩
        intro l n hmem
        have h2 := (P8 hne).1 l n hmem
        have := hqpers _ h2
        simp at this
      · rw [P12]
        exact P10
      · rw [P12]
        rcases u9 with h | h
        · rw [h]
          refine hPfiltlen.trans ?_
          rw [List.length_take]
          exact min_le_right _ _
        · rw [h, List.length_take]
          exact min_le_right _ _
      · intro urls h hne
        rw [P11, u5]
        exact hPfound urls h hne

/-! ## Further path lemmas used by the claims -/

theorem discoveredPages_ne_nil (env : Env) (url : String) :
    discoveredPages env url ≠ [] := by
  unfold discoveredPages
  cases env.sitemap with
  | returns urls =>
    cases hu : urls.isEmpty with
    | true => simp [hu]
    | false =>
      simp only [hu, Bool.false_eq_true, if_false]
      intro h
      rw [h] at hu
      cases hu
  | raises => simp

theorem postPrefilter_nomatch (sp : List String) (pl : Nat) (kws : List String)
    (st : WorkerState) (hw : st.pages_with_keywords = 0)
    (hf : st.filtered_pages = []) :
    (postPrefilter sp pl kws st).pages_to_process = sp.take (min pl sp.length) ∧
    (postPrefilter sp pl kws st).ps.keyword_search_results = some "no_matches" ∧
    (postPrefilter sp pl kws st).ps.pages_checked = some st.pages_checked ∧
    (postPrefilter sp pl kws st).persists
      = st.persists ++ [PersistOp.noMatchesUpdate st.pages_checked kws] := by
  simp [postPrefilter, hw, hf]

/-! ## Claims -/

/-- C7: for every submitted pages_limit and scrape_mode, the effective page
limit used by the job equals 5 if pages_limit < 1, else min(pages_limit, 100)
if scrape_mode is "limited", else pages_limit unchanged if scrape_mode is
"all" (lines 64-72). -/
theorem C7_effective_page_limit (pages_limit : Int) (scrape_mode : String) :
    (pages_limit < 1 → effectivePagesLimit scrape_mode pages_limit = 5) ∧
    (¬ pages_limit < 1 → scrape_mode = "limited" →
      effectivePagesLimit scrape_mode pages_limit = min pages_limit 100) ∧
    (¬ pages_limit < 1 → scrape_mode = "all" →
      effectivePagesLimit scrape_mode pages_limit = pages_limit) := by
  refine ⟨?_, ?_, ?_⟩
  · intro h
    simp [effectivePagesLimit, validated_pages_limit, h]
  · intro h hm
    subst hm
    simp only [effectivePagesLimit, validated_scrape_mode, validated_pages_limit]
    simp [h]
    split_ifs <;> omega
  · intro h hm
    subst hm
    simp only [effectivePagesLimit, validated_scrape_mode, validated_pages_limit]
    simp [h]

/-- C7 witness: the three regimes at concrete inputs. -/
theorem C7_effective_page_limit_witness :
    effectivePagesLimit "limited" 250 = min 250 100 ∧
    effectivePagesLimit "all" 250 = 250 ∧
    effectivePagesLimit "limited" 0 = 5 :=
  ⟨(C7_effective_page_limit 250 "limited").2.1 (by decide) rfl,
   (C7_effective_page_limit 250 "all").2.2 (by decide) rfl,
   (C7_effective_page_limit 0 "limited").1 (by decide)⟩

/-- C6 counterexample: a registry entry that is present but already in the
terminal state "completed" still gets `interrupt_extraction` returning True
(lines 726-734 only test presence), contradicting the claim that it returns
false for a terminal job. -/
theorem C6_interrupt_counterexample :
    (interrupt_extraction (some { project_id := "p", status := STATUS_COMPLETED, interrupt_requested := false })).1 = true := rfl

/-- C6 amended: interrupt_extraction returns false iff the job is unknown;
for any present entry, terminal or not, it returns true and sets the flag;
it is idempotent (a second call leaves the entry as after the first). -/
theorem C6_interrupt_unknown_only :
    (interrupt_extraction none).1 = false ∧
    (∀ e : RegistryEntry, (interrupt_extraction (some e)).1 = true ∧
      (interrupt_extraction (some e)).2 = some { e with interrupt_requested := true }) ∧
    (∀ o : Option RegistryEntry,
      (interrupt_extraction (interrupt_extraction o).2).2 = (interrupt_extraction o).2) := by
  refine ⟨rfl, fun e => ⟨rfl, rfl⟩, ?_⟩
  intro o
  cases o <;> rfl

/-- C2 counterexample: a submission with a non-empty URL and no websocket
manager creates and persists the project but never submits the worker
(lines 140-165 guard `thread_pool.submit` behind `if ws_manager:`), so the
pipeline does not run, contradicting the claim that it runs regardless. -/
theorem C2_no_ws_counterexample :
    (add_project_with_scraping "https://example.com" false "limited" 5).toOption.map
      (fun o => (o.project_inserted, o.queue_created, o.worker_submitted))
      = some (true, false, false) := rfl

/-- C2 amended: with a non-empty URL and no websocket manager the project
record is created and registered, but no queue is made, no consumer started,
no initial message sent, and the extraction worker is never submitted. -/
theorem C2_no_ws_no_worker (url scrape_mode : String) (pages_limit : Int)
    (h : url ≠ "") :
    ∃ o, add_project_with_scraping url false scrape_mode pages_limit = Except.ok o ∧
      o.project_inserted = true ∧ o.queue_created = false ∧
      o.consumer_started = false ∧ o.initial_message_sent = false ∧
      o.worker_submitted = false := by
  unfold add_project_with_scraping
  rw [if_neg h]
  exact ⟨_, rfl, rfl, rfl, rfl, rfl, rfl⟩

/-- C2 witness: the amended statement at a concrete URL. -/
theorem C2_no_ws_no_worker_witness :
    "https://example.org" ≠ "" ∧
    ∃ o, add_project_with_scraping "https://example.org" false "limited" 5
        = Except.ok o ∧
      o.project_inserted = true ∧ o.queue_created = false ∧
      o.consumer_started = false ∧ o.initial_message_sent = false ∧
      o.worker_submitted = false :=
  ⟨by decide, C2_no_ws_no_worker "https://example.org" "limited" 5 (by decide)⟩

/-- Environment for the C1 counterexample: an exception escapes the
pipeline body at the first fetch iteration (outer handler, lines 637-659). -/
def envC1cx : Env where
  robots := .hasId
  sitemap := .returns ["u"]
  fetchPage := fun _ => none
  checkRaises := fun _ => false
  scrape := fun _ => some {}
  uncaughtAt := some 0

/-- C1 counterexample: a job that ends in the terminal ERROR state queues
no completion message at all — the except block at lines 637-659 sends an
error log but never puts a completion item, refuting "the ERROR
termination path also queues a completion message". -/
theorem C1_error_no_completion_counterexample :
    (run_extraction_thread envC1cx "u" "limited" 5 [] true).ps.extraction_status
      = STATUS_ERROR ∧
    completionCount (run_extraction_thread envC1cx "u" "limited" 5 [] true).msgs
      = 0 :=
  ⟨rfl, rfl⟩

/-- C1 amended: every run ends in a terminal state; for runs ending
COMPLETED or INTERRUPTED exactly one completion message is queued and it is
the last message; a run ending ERROR queues no completion message. -/
theorem C1_completion_last_unless_error (env : Env) (url scrape_mode : String)
    (pages_limit : Nat) (search_keywords : List String) (include_meta : Bool) :
    ((run_extraction_thread env url scrape_mode pages_limit search_keywords
        include_meta).ps.extraction_status = STATUS_COMPLETED ∨
     (run_extraction_thread env url scrape_mode pages_limit search_keywords
        include_meta).ps.extraction_status = STATUS_INTERRUPTED ∨
     (run_extraction_thread env url scrape_mode pages_limit search_keywords
        include_meta).ps.extraction_status = STATUS_ERROR) ∧
    (((run_extraction_thread env url scrape_mode pages_limit search_keywords
        include_meta).ps.extraction_status = STATUS_COMPLETED ∨
      (run_extraction_thread env url scrape_mode pages_limit search_keywords
        include_meta).ps.extraction_status = STATUS_INTERRUPTED) →
      completionCount (run_extraction_thread env url scrape_mode pages_limit
        search_keywords include_meta).msgs = 1 ∧
      (run_extraction_thread env url scrape_mode pages_limit search_keywords
        include_meta).msgs.getLast?.map Message.mtype = some "completion") ∧
    ((run_extraction_thread env url scrape_mode pages_limit search_keywords
        include_meta).ps.extraction_status = STATUS_ERROR →
      completionCount (run_extraction_thread env url scrape_mode pages_limit
        search_keywords include_meta).msgs = 0) := by
  obtain ⟨c1, _, _, c4, c5, _⟩ := run_spec env url scrape_mode pages_limit
    search_keywords include_meta _ rfl
  exact ⟨c1, c4, c5⟩

/-- Environment for the C1 witness: an ordinary completed run. -/
def envC1w : Env where
  robots := .hasId
  sitemap := .returns ["u"]
  fetchPage := fun _ => none
  checkRaises := fun _ => false
  scrape := fun _ => some {}

/-- C1 witness: a completed run carries exactly one completion message. -/
theorem C1_completion_last_unless_error_witness :
    completionCount (run_extraction_thread envC1w "u" "limited" 5 [] true).msgs = 1 :=
  ((C1_completion_last_unless_error envC1w "u" "limited" 5 [] true).2.1 (Or.inl rfl)).1

/-- Terminal extraction statuses (the three states of spec section 4.3). -/
def is_terminal (s : String) : Bool :=
  s == STATUS_COMPLETED || s == STATUS_ERROR || s == STATUS_INTERRUPTED

/-- C9: end_time is none with status running and no assignments at job
start; at the end of every run the status is terminal, end_time is set, and
it was assigned exactly once (the counter `end_time_sets` counts the three
termination paths' single assignment). -/
theorem C9_end_time_iff_terminal (env : Env) (url scrape_mode : String)
    (pages_limit : Nat) (search_keywords : List String) (include_meta : Bool) :
    ((initStatus scrape_mode pages_limit search_keywords
        include_meta).extraction_status = STATUS_RUNNING ∧
     (initStatus scrape_mode pages_limit search_keywords include_meta).end_time
        = none ∧
     (initStatus scrape_mode pages_limit search_keywords include_meta).end_time_sets
        = 0) ∧
    (is_terminal (run_extraction_thread env url scrape_mode pages_limit
        search_keywords include_meta).ps.extraction_status = true ↔
      (run_extraction_thread env url scrape_mode pages_limit search_keywords
        include_meta).ps.end_time.isSome = true) ∧
    (run_extraction_thread env url scrape_mode pages_limit search_keywords
      include_meta).ps.end_time_sets = 1 := by
  obtain ⟨c1, c2, c3, _⟩ := run_spec env url scrape_mode pages_limit
    search_keywords include_meta _ rfl
  have hterm : is_terminal (run_extraction_thread env url scrape_mode pages_limit
      search_keywords include_meta).ps.extraction_status = true := by
    rcases c1 with h | h | h <;> rw [h] <;> rfl
  have hsome : (run_extraction_thread env url scrape_mode pages_limit
      search_keywords include_meta).ps.end_time.isSome = true := by
    rw [c2]; rfl
  exact ⟨⟨rfl, rfl, rfl⟩, iff_of_true hterm hsome, c3⟩

/-- Environment for the C5 scenario: two pages are scraped and the
interrupt flag is observed at the second check. -/
def envC5 : Env where
  robots := .hasId
  sitemap := .returns ["p", "q"]
  fetchPage := fun _ => none
  checkRaises := fun _ => false
  scrape := fun _ => some {}
  interruptFrom := some 2

/-- The processing_status pages_scraped count carried by a persistence
call, when it carries one. -/
def persistedPagesScrapedField : PersistOp → Option Nat
  | .completedUpdate _ n => some n
  | .fullStatusUpdate ps => some ps.pages_scraped
  | _ => none

/-- The scraped_pages list carried by a persistence call, when it carries
one (only the completed path writes site_data.scraped_pages). -/
def persistedScrapedListField : PersistOp → Option (List String)
  | .completedUpdate l _ => some l
  | _ => none

/-- C5 counterexample: a job interrupted after scraping both of its two
pages.  No persistence call ever writes the true count 2 or the list of the
two pages: handle_interruption (lines 696-700) persists the processing
status whose pages_scraped is still 0 (it is only updated at line 590 on
the completed path), and site_data.scraped_pages is written only at lines
595-604. -/
theorem C5_stale_persist_counterexample :
    (run_extraction_thread envC5 "u" "limited" 5 [] true).scraped_pages
      = ["p", "q"] ∧
    (run_extraction_thread envC5 "u" "limited" 5 [] true).ps.extraction_status
      = STATUS_INTERRUPTED ∧
    (∀ op ∈ (run_extraction_thread envC5 "u" "limited" 5 [] true).persists,
      persistedPagesScrapedField op ≠ some 2 ∧
      persistedScrapedListField op ≠ some ["p", "q"]) := by
  refine ⟨rfl, rfl, ?_⟩
  decide

/-- C5 amended: per-page records are persisted individually as each page is
scraped (a storePage call exists for every scraped page), but the job
record's pages_scraped count in any whole-status persist is always the
stale 0, and the scraped_pages list with its count is written only by the
COMPLETED path. -/
theorem C5_partial_persistence (env : Env) (url scrape_mode : String)
    (pages_limit : Nat) (search_keywords : List String) (include_meta : Bool) :
    (∀ ps', PersistOp.fullStatusUpdate ps' ∈ (run_extraction_thread env url
        scrape_mode pages_limit search_keywords include_meta).persists →
      ps'.pages_scraped = 0) ∧
    ((run_extraction_thread env url scrape_mode pages_limit search_keywords
        include_meta).ps.extraction_status ≠ STATUS_COMPLETED →
      ∀ l n, PersistOp.completedUpdate l n ∉ (run_extraction_thread env url
        scrape_mode pages_limit search_keywords include_meta).persists) ∧
    (∀ u ∈ (run_extraction_thread env url scrape_mode pages_limit
        search_keywords include_meta).scraped_pages,
      ∃ b, PersistOp.storePage u b ∈ (run_extraction_thread env url scrape_mode
        pages_limit search_keywords include_meta).persists) := by
  obtain ⟨_, _, _, _, _, c6, c7, c8, _⟩ := run_spec env url scrape_mode
    pages_limit search_keywords include_meta _ rfl
  exact ⟨c6, fun h => (c7 h).1, c8⟩

/-- C5 witness: in the interrupted two-page run, no completedUpdate was
persisted and the first page does have its storePage persist. -/
theorem C5_partial_persistence_witness :
    PersistOp.completedUpdate ["p"] 1 ∉ (run_extraction_thread envC5 "u"
      "limited" 5 [] true).persists ∧
    ∃ b, PersistOp.storePage "p" b ∈ (run_extraction_thread envC5 "u"
      "limited" 5 [] true).persists :=
  ⟨(C5_partial_persistence envC5 "u" "limited" 5 [] true).2.1 (by decide) ["p"] 1,
   (C5_partial_persistence envC5 "u" "limited" 5 [] true).2.2 "p" (by decide)⟩

/-- Environment for the C10 counterexample: sitemap discovery raises, so
pages_found stays 0 while the default single page is still scraped. -/
def envC10 : Env where
  robots := .hasId
  sitemap := .raises
  fetchPage := fun _ => none
  checkRaises := fun _ => false
  scrape := fun _ => some {}

/-- C10 counterexample: when discovery fails the worker falls back to the
single-page set and scrapes it, ending with pages_scraped = 1 while
pages_found is still 0 (it is only assigned at line 415 on sitemap
success), so pages_scraped ≤ pages_found fails exactly in the fallback case
the claim includes. -/
theorem C10_discovery_failed_counterexample :
    (run_extraction_thread envC10 "u" "limited" 5 [] true).ps.sitemap_status
      = "error" ∧
    (run_extraction_thread envC10 "u" "limited" 5 [] true).ps.pages_scraped = 1 ∧
    (run_extraction_thread envC10 "u" "limited" 5 [] true).ps.pages_found = 0 ∧
    ¬ (run_extraction_thread envC10 "u" "limited" 5 [] true).ps.pages_scraped
        ≤ (run_extraction_thread envC10 "u" "limited" 5 [] true).ps.pages_found := by
  refine ⟨rfl, rfl, rfl, by decide⟩

/-- C10 amended: whenever sitemap discovery succeeds (a non-empty page
list is returned), the final counts satisfy pages_scraped ≤ pages_found;
when discovery fails, pages_found stays 0 while the single default page may
still be scraped. -/
theorem C10_scraped_le_found_on_success (env : Env) (url scrape_mode : String)
    (pages_limit : Nat) (search_keywords : List String) (include_meta : Bool)
    (urls : List String) (h : env.sitemap = SitemapOutcome.returns urls)
    (hne : urls ≠ []) :
    (run_extraction_thread env url scrape_mode pages_limit search_keywords
      include_meta).ps.pages_scraped ≤
    (run_extraction_thread env url scrape_mode pages_limit search_keywords
      include_meta).ps.pages_found := by
  obtain ⟨_, _, _, _, _, _, _, _, c9, c10, c11⟩ := run_spec env url scrape_mode
    pages_limit search_keywords include_meta _ rfl
  rw [c11 urls h hne]
  exact le_trans c9 c10

/-- Environment for the C10 witness: a successful discovery. -/
def envC10w : Env where
  robots := .hasId
  sitemap := .returns ["u"]
  fetchPage := fun _ => none
  checkRaises := fun _ => false
  scrape := fun _ => some {}

/-- C10 witness: the amended inequality at a concrete successful-discovery
run. -/
theorem C10_scraped_le_found_witness :
    (run_extraction_thread envC10w "u" "limited" 5 [] true).ps.pages_scraped ≤
    (run_extraction_thread envC10w "u" "limited" 5 [] true).ps.pages_found :=
  C10_scraped_le_found_on_success envC10w "u" "limited" 5 [] true ["u"] rfl
    (by decide)

/-- Environment for the C3 counterexample: page "a" matches the keyword,
page "b" fails its fetch inside check_page_for_keywords. -/
def envC3 : Env where
  robots := .hasId
  sitemap := .returns ["a", "b"]
  fetchPage := fun u => if u = "a" then some { bodyText := "xKz" } else none
  checkRaises := fun _ => false
  scrape := fun _ => some {}

/-- C3 counterexample: page "b"'s prefilter check fails (fetch error inside
check_page_for_keywords, line 317, yielding the (false, [], dict, dict)
tuple), and because another page matched, "b" is excluded from
pages_to_process and never fetched — refuting "a page whose check fails is
included in the downstream set". -/
theorem C3_failed_check_dropped_counterexample :
    envC3.fetchPage "b" = none ∧
    check_page_for_keywords (envC3.fetchPage "b") ["k"] true
      = { contains_keywords := false, matching_keywords := [], meta_info := {}, keyword_contexts := [] } ∧
    (run_extraction_thread envC3 "u" "limited" 5 ["k"] true).pages_to_process
      = ["a"] ∧
    "b" ∉ (run_extraction_thread envC3 "u" "limited" 5 ["k"] true).pages_to_process ∧
    (run_extraction_thread envC3 "u" "limited" 5 ["k"] true).fetches = ["a"] := by
  refine ⟨rfl, rfl, rfl, by decide, rfl⟩

/-- C3 amended: a fetch or parse failure inside check_page_for_keywords
yields the (false, [], dict, dict) tuple and the caller treats the page as
an ordinary non-match: it logs a skip warning and does not append the page
to filtered_pages (only the caller-level exception branch at lines 481-486
includes a page, and the zero-match fallback may still re-include it). -/
theorem C3_failed_check_is_skipped (env : Env) (kws : List String) (im : Bool)
    (page_url : String) (rest : List String) (i : Nat) (st : WorkerState)
    (hni : env.should_interrupt (st.checks + 1) = false)
    (hnr : env.checkRaises page_url = false)
    (hf : env.fetchPage page_url = none) :
    check_page_for_keywords (env.fetchPage page_url) kws im
      = { contains_keywords := false, matching_keywords := [], meta_info := {}, keyword_contexts := [] } ∧
    ∃ st2, prefilterLoop env kws im (page_url :: rest) i st
        = prefilterLoop env kws im rest (i + 1) st2 ∧
      st2.filtered_pages = st.filtered_pages ∧
      st2.pages_checked = st.pages_checked + 1 := by
  have hc : (check_page_for_keywords (env.fetchPage page_url) kws
      im).contains_keywords = false := by
    rw [hf]; rfl
  constructor
  · rw [hf]; rfl
  · exact ⟨_, prefilterLoop_skip_step env kws im page_url rest i st hni hnr hc,
      rfl, rfl⟩

/-- Environment for the C3 witness: every fetch fails. -/
def envC3w : Env where
  robots := .hasId
  sitemap := .returns ["b"]
  fetchPage := fun _ => none
  checkRaises := fun _ => false
  scrape := fun _ => some {}

/-- C3 witness: the amended statement at a concrete page and state. -/
theorem C3_failed_check_is_skipped_witness :
    envC3w.should_interrupt
      ((initWorkerState "limited" 5 ["k"] true).checks + 1) = false ∧
    envC3w.checkRaises "b" = false ∧
    envC3w.fetchPage "b" = none ∧
    (check_page_for_keywords (envC3w.fetchPage "b") ["k"] true
      = { contains_keywords := false, matching_keywords := [], meta_info := {}, keyword_contexts := [] } ∧
    ∃ st2, prefilterLoop envC3w ["k"] true ["b"] 0
        (initWorkerState "limited" 5 ["k"] true)
        = prefilterLoop envC3w ["k"] true [] 1 st2 ∧
      st2.filtered_pages = (initWorkerState "limited" 5 ["k"] true).filtered_pages ∧
      st2.pages_checked
        = (initWorkerState "limited" 5 ["k"] true).pages_checked + 1) :=
  ⟨rfl, rfl, rfl, C3_failed_check_is_skipped envC3w ["k"] true "b" [] 0
    (initWorkerState "limited" 5 ["k"] true) rfl rfl rfl⟩

/-- Environment for the C4 counterexample: interruption is requested before
the run starts (the flag reads true from the first query on), no keywords. -/
def envC4 : Env where
  robots := .hasId
  sitemap := .returns ["p1"]
  fetchPage := fun _ => none
  checkRaises := fun _ => false
  scrape := fun _ => some {}
  interruptFrom := some 0

/-- C4 counterexample: with the interrupt flag set before any page has been
fetched, the worker still fetches the first page — the fetch loop checks
the flag only after each page (lines 583-587), not before the fetch — so
"with no page fetched" fails even though the job does end INTERRUPTED with
pages_scraped = 0 and a completion message. -/
theorem C4_first_page_still_fetched_counterexample :
    envC4.interruptFrom = some 0 ∧
    (run_extraction_thread envC4 "u" "limited" 5 [] true).fetches = ["p1"] ∧
    (run_extraction_thread envC4 "u" "limited" 5 [] true).ps.extraction_status
      = STATUS_INTERRUPTED ∧
    (run_extraction_thread envC4 "u" "limited" 5 [] true).ps.pages_scraped = 0 ∧
    completionCount (run_extraction_thread envC4 "u" "limited" 5 [] true).msgs
      = 1 :=
  ⟨rfl, rfl, rfl, rfl, rfl⟩

theorem handle_interruption_status (st : WorkerState) :
    (handle_interruption st).ps.extraction_status = STATUS_INTERRUPTED := rfl

theorem handle_interruption_fetches (st : WorkerState) :
    (handle_interruption st).fetches = st.fetches := rfl

theorem handle_interruption_pages_scraped (st : WorkerState) :
    (handle_interruption st).ps.pages_scraped = st.ps.pages_scraped := rfl

theorem handle_interruption_count (st : WorkerState) :
    completionCount (handle_interruption st).msgs = completionCount st.msgs + 1 := by
  show completionCount (st.msgs ++ _ ++ [completionMessage _ _ _])
    = completionCount st.msgs + 1
  simp [completionCount_append, completionCount, completionMessage, emit_msgs]

/-- C4 amended: the worker queries the interrupt flag before each
keyword-prefilter page check, but in the fetch-and-persist loop only after
each page (lines 583-587).  With the interrupt flag set before the run
starts and a positive page limit: with keywords configured, the job ends
INTERRUPTED before any fetch, with pages_scraped = 0 and one completion
message queued; without keywords, exactly one page is fetched first, and
only then does the job end INTERRUPTED, still reporting pages_scraped = 0
with one completion message. -/
theorem C4_interrupt_checkpoint_positions (env : Env) (url scrape_mode : String)
    (pages_limit : Nat) (search_keywords : List String) (include_meta : Bool)
    (hj : env.interruptFrom = some 0) (hpl : 1 ≤ pages_limit) :
    (search_keywords.isEmpty = false →
      (run_extraction_thread env url scrape_mode pages_limit search_keywords
        include_meta).ps.extraction_status = STATUS_INTERRUPTED ∧
      (run_extraction_thread env url scrape_mode pages_limit search_keywords
        include_meta).fetches = [] ∧
      (run_extraction_thread env url scrape_mode pages_limit search_keywords
        include_meta).ps.pages_scraped = 0 ∧
      completionCount (run_extraction_thread env url scrape_mode pages_limit
        search_keywords include_meta).msgs = 1) ∧
    (search_keywords.isEmpty = true → env.uncaughtAt = none →
      (run_extraction_thread env url scrape_mode pages_limit search_keywords
        include_meta).ps.extraction_status = STATUS_INTERRUPTED ∧
      (run_extraction_thread env url scrape_mode pages_limit search_keywords
        include_meta).fetches.length = 1 ∧
      (run_extraction_thread env url scrape_mode pages_limit search_keywords
        include_meta).ps.pages_scraped = 0 ∧
      completionCount (run_extraction_thread env url scrape_mode pages_limit
        search_keywords include_meta).msgs = 1) := by
  obtain ⟨d, dtail, hdp⟩ : ∃ d dtail, discoveredPages env url = d :: dtail := by
    cases hdp : discoveredPages env url with
    | nil => exact absurd hdp (discoveredPages_ne_nil env url)
    | cons a l => exact ⟨a, l, rfl⟩
  obtain ⟨m, hm⟩ : ∃ m, pages_limit = m + 1 := ⟨pages_limit - 1, by omega⟩
  have hslice : (discoveredPages env url).take pages_limit = d :: dtail.take m := by
    rw [hdp, hm]
    rfl
  obtain ⟨q1, q2, q3, q4, q5, q6, q7, q8, q9, q10, q11, q12, q13, q14, q15⟩ :=
    stagedState_stageOk env url scrape_mode pages_limit search_keywords include_meta
  set SB := stagedState env url scrape_mode pages_limit search_keywords include_meta
    with hSBdef
  constructor
  · intro hk
    simp only [run_extraction_thread, hk, Bool.false_eq_true, if_false]
    rw [hslice]
    set PB := emit SB "info"
      ("Filtering pages by keywords: " ++ String.intercalate ", " search_keywords)
      with hPBdef
    rw [prefilterLoop_interrupt_now env search_keywords include_meta d
      (dtail.take m) 0 PB (should_interrupt_zero hj _)]
    dsimp only
    have hPBcount : completionCount PB.msgs = 0 := by
      rw [hPBdef, completionCount_emit _ _ _ (by decide)]
      rw [q15]; rfl
    have hPBscr : PB.ps.pages_scraped = 0 := by
      show SB.ps.pages_scraped = 0
      rw [q4]; rfl
    have hPBf : PB.fetches = [] := by
      show SB.fetches = []
      rw [q11]; rfl
    refine ⟨handle_interruption_status _, ?_, ?_, ?_⟩
    · rw [handle_interruption_fetches]
      show PB.fetches = []
      exact hPBf
    · rw [handle_interruption_pages_scraped]
      show PB.ps.pages_scraped = 0
      exact hPBscr
    · rw [handle_interruption_count]
      have hS : completionCount (emit { PB with checks := PB.checks + 1 } "warning"
          ("Filtering interrupted after checking " ++ toString 0 ++ " pages")).msgs
          = 0 := by
        rw [completionCount_emit _ _ _ (by decide)]
        show completionCount PB.msgs = 0
        exact hPBcount
      rw [hS]
  · intro hk hu
    simp only [run_extraction_thread, hk, if_true]
    rw [hslice]
    set ST := { SB with pages_to_process := d :: dtail.take m } with hSTdef
    simp only [scrapePhase]
    set ST1 := emit ST "info"
      ("Starting to scrape " ++ toString ST.pages_to_process.length ++ " pages")
      with hST1def
    have hptp : ST1.pages_to_process = d :: dtail.take m := rfl
    rw [hptp]
    have hu' : (env.uncaughtAt == some 0) = false := by rw [hu]; rfl
    rw [scrapeLoop_interrupt_first env (d :: dtail.take m).length d (dtail.take m)
      0 ST1 hu' (should_interrupt_zero hj _)]
    dsimp only
    obtain ⟨b1, b2, b3, b4, b5, b6, b7, b8, b9, b10, b11, b12, b13⟩ :=
      stepOk_scrapeBody env (d :: dtail.take m).length 0 d ST1
    have hST1count : completionCount ST1.msgs = 0 := by
      rw [hST1def, completionCount_emit _ _ _ (by decide)]
      show completionCount SB.msgs = 0
      rw [q15]; rfl
    have hST1scr : ST1.ps.pages_scraped = 0 := by
      show SB.ps.pages_scraped = 0
      rw [q4]; rfl
    have hST1f : ST1.fetches = [] := by
      show SB.fetches = []
      rw [q11]; rfl
    refine ⟨handle_interruption_status _, ?_, ?_, ?_⟩
    · rw [handle_interruption_fetches]
      show (scrapeBody env (d :: dtail.take m).length 0 d ST1).fetches.length = 1
      rw [scrapeBody_fetches, hST1f]
      rfl
    · rw [handle_interruption_pages_scraped]
      show (scrapeBody env (d :: dtail.take m).length 0 d ST1).ps.pages_scraped = 0
      rw [b4, hST1scr]
    · rw [handle_interruption_count]
      have hS : completionCount (emit { scrapeBody env (d :: dtail.take m).length
          0 d ST1 with checks := (scrapeBody env (d :: dtail.take m).length 0 d
          ST1).checks + 1 } "warning" ("Scraping interrupted after processing "
          ++ toString (0 + 1) ++ " pages")).msgs = 0 := by
        rw [completionCount_emit _ _ _ (by decide)]
        show completionCount (scrapeBody env (d :: dtail.take m).length 0 d
          ST1).msgs = 0
        rw [b10, hST1count]
      rw [hS]

/-- Environment for the C4 witnesses: interrupt requested from the start. -/
def envC4w : Env where
  robots := .hasId
  sitemap := .returns ["p1"]
  fetchPage := fun _ => none
  checkRaises := fun _ => false
  scrape := fun _ => some {}
  interruptFrom := some 0

/-- C4 witness: both parts of the amended statement at concrete runs. -/
theorem C4_interrupt_checkpoint_positions_witness :
    ((run_extraction_thread envC4w "u" "limited" 5 ["k"] true).fetches = [] ∧
     (run_extraction_thread envC4w "u" "limited" 5 ["k"] true).ps.pages_scraped
       = 0) ∧
    ((run_extraction_thread envC4w "u" "limited" 5 [] true).fetches.length = 1 ∧
     completionCount (run_extraction_thread envC4w "u" "limited" 5 [] true).msgs
       = 1) :=
  ⟨⟨((C4_interrupt_checkpoint_positions envC4w "u" "limited" 5 ["k"] true rfl
      (by decide)).1 rfl).2.1,
    ((C4_interrupt_checkpoint_positions envC4w "u" "limited" 5 ["k"] true rfl
      (by decide)).1 rfl).2.2.1⟩,
   ⟨((C4_interrupt_checkpoint_positions envC4w "u" "limited" 5 [] true rfl
      (by decide)).2 rfl rfl).2.1,
    ((C4_interrupt_checkpoint_positions envC4w "u" "limited" 5 [] true rfl
      (by decide)).2 rfl rfl).2.2.2⟩⟩

/-- Environment for the C8 counterexample: discovery raises, no page
matches the keyword. -/
def envC8 : Env where
  robots := .hasId
  sitemap := .raises
  fetchPage := fun _ => some { bodyText := "x" }
  checkRaises := fun _ => false
  scrape := fun _ => some {}

/-- C8 counterexample: with keywords and zero matches after a failed
discovery, the fallback set is the single default page (size 1), while the
status count pages_found is still 0 (only set at line 415 on sitemap
success), so the processed set size is not min(pages_limit, pages_found). -/
theorem C8_fallback_size_counterexample :
    (run_extraction_thread envC8 "u" "limited" 5 ["k"] true).ps.keyword_search_results
      = some "no_matches" ∧
    (run_extraction_thread envC8 "u" "limited" 5 ["k"] true).ps.pages_found = 0 ∧
    (run_extraction_thread envC8 "u" "limited" 5 ["k"] true).pages_to_process.length
      = 1 ∧
    ¬ (run_extraction_thread envC8 "u" "limited" 5 ["k"]
        true).pages_to_process.length
      = min 5 (run_extraction_thread envC8 "u" "limited" 5 ["k"]
        true).ps.pages_found := by
  refine ⟨rfl, rfl, rfl, by decide⟩

/-- C8 amended: with keywords configured, no interruption, and zero of the
checked pages matching, the processed set is the first
min(pages_limit, number-of-discovered-pages) discovered pages — which
equals min(pages_limit, pages_found) exactly when discovery succeeded —
and keyword_search_results = "no_matches" and pages_checked are recorded
in the status and persisted by the very first persistence call of the run,
before any page store. -/
theorem C8_no_matches_fallback (env : Env) (url scrape_mode : String)
    (pages_limit : Nat) (search_keywords : List String) (include_meta : Bool)
    (hk : search_keywords.isEmpty = false)
    (hint : env.interruptFrom = none)
    (hall : ∀ u ∈ (discoveredPages env url).take pages_limit,
      env.checkRaises u = false ∧
      (check_page_for_keywords (env.fetchPage u) search_keywords
        include_meta).contains_keywords = false) :
    (run_extraction_thread env url scrape_mode pages_limit search_keywords
      include_meta).pages_to_process
      = (discoveredPages env url).take
          (min pages_limit (discoveredPages env url).length) ∧
    (run_extraction_thread env url scrape_mode pages_limit search_keywords
      include_meta).ps.keyword_search_results = some "no_matches" ∧
    (run_extraction_thread env url scrape_mode pages_limit search_keywords
      include_meta).ps.pages_checked
      = some ((discoveredPages env url).take pages_limit).length ∧
    (run_extraction_thread env url scrape_mode pages_limit search_keywords
      include_meta).persists.head?
      = some (PersistOp.noMatchesUpdate
          ((discoveredPages env url).take pages_limit).length search_keywords) ∧
    (∀ urls, env.sitemap = SitemapOutcome.returns urls → urls ≠ [] →
      (run_extraction_thread env url scrape_mode pages_limit search_keywords
        include_meta).pages_to_process.length
        = min pages_limit (run_extraction_thread env url scrape_mode pages_limit
            search_keywords include_meta).ps.pages_found) := by
  simp only [run_extraction_thread, hk, Bool.false_eq_true, if_false]
  obtain ⟨q1, q2, q3, q4, q5, q6, q7, q8, q9, q10, q11, q12, q13, q14, q15⟩ :=
    stagedState_stageOk env url scrape_mode pages_limit search_keywords include_meta
  set SB := stagedState env url scrape_mode pages_limit search_keywords include_meta
    with hSBdef
  set PB := emit SB "info"
    ("Filtering pages by keywords: " ++ String.intercalate ", " search_keywords)
    with hPBdef
  obtain ⟨g1, g2, g3, g4, g5, g6⟩ := prefilterLoop_nomatch env search_keywords
    include_meta hint ((discoveredPages env url).take pages_limit) 0 PB hall
  obtain ⟨w1, w2, w3, w4, w5, w6, w7, w8⟩ :=
    prefilterLoop_preOk env search_keywords include_meta
      ((discoveredPages env url).take pages_limit) 0 PB
  rw [g1]
  dsimp only
  set P := (prefilterLoop env search_keywords include_meta
    ((discoveredPages env url).take pages_limit) 0 PB).1 with hPdef
  have hPBcount : completionCount PB.msgs = 0 := by
    rw [hPBdef, completionCount_emit _ _ _ (by decide)]
    rw [q15]; rfl
  have hPfilt : P.filtered_pages = [] := g2.trans (q12.trans rfl)
  have hPpwk : P.pages_with_keywords = 0 := g3.trans (q13.trans rfl)
  have hPBchk : PB.pages_checked = 0 := q14.trans rfl
  have hPchk : P.pages_checked
      = ((discoveredPages env url).take pages_limit).length := by
    rw [g4, hPBchk, Nat.zero_add]
  have hPpers : P.persists = [] := g6.trans (q7.trans rfl)
  obtain ⟨n1, n2, n3, n4⟩ := postPrefilter_nomatch (discoveredPages env url)
    pages_limit search_keywords P hPpwk hPfilt
  obtain ⟨u1, u2, u3, u4, u5, u6, u7, u8, u9⟩ :=
    postPrefilter_spec (discoveredPages env url) pages_limit search_keywords P
  have hqc : completionCount (postPrefilter (discoveredPages env url) pages_limit
      search_keywords P).msgs = 0 := u8.trans (w7.trans hPBcount)
  have hqn : (postPrefilter (discoveredPages env url) pages_limit
      search_keywords P).ps.end_time_sets = 0 := by
    rw [u3, g5]
    show SB.ps.end_time_sets = 0
    rw [q3]; rfl
  have hqz : (postPrefilter (discoveredPages env url) pages_limit
      search_keywords P).ps.pages_scraped = 0 := by
    rw [u4, g5]
    show SB.ps.pages_scraped = 0
    rw [q4]; rfl
  have hqs : (postPrefilter (discoveredPages env url) pages_limit
      search_keywords P).scraped_pages = [] := by
    rw [u7, w3]
    show SB.scraped_pages = []
    rw [q8]; rfl
  obtain ⟨P1, P2, P3, P4, P5, P6, P7, P8, P9, P10, P11, P12, P13, P14⟩ :=
    scrapePhase_spec env _ hqc hqn hqz hqs
  refine ⟨?_, ?_, ?_, ?_, ?_⟩
  · rw [P12, n1]
  · rw [P13, n2]
  · rw [P14, n3, hPchk]
  · obtain ⟨ops, hops⟩ := P6
    rw [hops, n4, hPpers, hPchk]
    rfl
  · intro urls h hne
    have hpf : P.ps.pages_found = (discoveredPages env url).length := by
      rw [g5]
      exact stagedState_pages_found env url scrape_mode pages_limit
        search_keywords include_meta urls h hne
    rw [P12, n1, List.length_take, P11, u5, hpf]
    exact Nat.min_eq_left (Nat.min_le_right _ _)

/-- Environment for the C8 witness: successful discovery of two pages,
neither matching. -/
def envC8w : Env where
  robots := .hasId
  sitemap := .returns ["a", "b"]
  fetchPage := fun _ => some { bodyText := "x" }
  checkRaises := fun _ => false
  scrape := fun _ => some {}

/-- C8 witness: the amended statement at a concrete zero-match run. -/
theorem C8_no_matches_fallback_witness :
    (run_extraction_thread envC8w "u" "limited" 5 ["k"] true).pages_to_process
      = (discoveredPages envC8w "u").take
          (min 5 (discoveredPages envC8w "u").length) ∧
    (run_extraction_thread envC8w "u" "limited" 5 ["k"]
      true).ps.keyword_search_results = some "no_matches" :=
  ⟨(C8_no_matches_fallback envC8w "u" "limited" 5 ["k"] true rfl rfl
      (by decide)).1,
   (C8_no_matches_fallback envC8w "u" "limited" 5 ["k"] true rfl rfl
      (by decide)).2.1⟩

/-- C6 witness: a present running entry yields true. -/
theorem C6_interrupt_unknown_only_witness :
    (interrupt_extraction (some { project_id := "p", status := STATUS_RUNNING, interrupt_requested := false })).1 = true :=
  (C6_interrupt_unknown_only.2.1 _).1

/-- Environment for the C9 witness: an ordinary completed run. -/
def envC9w : Env where
  robots := .hasId
  sitemap := .returns ["u"]
  fetchPage := fun _ => none
  checkRaises := fun _ => false
  scrape := fun _ => some {}

/-- C9 witness: at a concrete completed run the status is terminal by the
iff from a set end_time. -/
theorem C9_end_time_iff_terminal_witness :
    is_terminal (run_extraction_thread envC9w "u" "limited" 5 [] true).ps.extraction_status = true :=
  (C9_end_time_iff_terminal envC9w "u" "limited" 5 [] true).2.1.mpr rfl

end ProjectManager
